import Mathlib

/-!
# gdal Go bindings: batch utilities and spatial-reference wrappers

A shallow embedding of `utilities.go` and of the wrappers of `osr.go` for imports,
exports, projection parameters, projection setters and coordinate transformation.
Every wrapper is a straight-line marshaling routine around calls into the native
library, so a wrapper is modelled as a function that, given the native library as a
reply function, produces

* the trace of what it did at the foreign-function boundary (C string
  allocations, native calls with their arguments, releases), and
* its Go return values, or the runtime fault that aborted it.

Native pointers and handles are natural numbers, `0` being the null pointer.
-/

namespace Gdal

/-! ## Values crossing the boundary -/

/-- Go `float64` / C `double`, represented by its IEEE-754 binary64 bit pattern.
The wrappers only copy such values. -/
structure Float64 where
  bits : Nat
deriving DecidableEq, Repr

/-- The buffer returned by `C.CString(s)`: where it lives and the Go string whose
bytes were copied into it. -/
structure CStr where
  addr : Nat
  val : String
deriving DecidableEq, Repr

/-- A value of Go type `*C.char`: nil, or a pointer to a `C.CString` buffer. -/
abbrev CharPtr := Option CStr

/-- One argument of a native call. -/
inductive CArg
  /-- a handle or `unsafe.Pointer`; `0` is nil -/
  | ptr (h : Nat)
  /-- a `*C.char` -/
  | str (p : CharPtr)
  /-- a `**C.char` taken as `&a[0]` of a Go slice `a` of `*C.char` -/
  | strv (a : List CharPtr)
  /-- a `*C.GDALDatasetH` taken as `&a[0]` of a Go slice `a` of handles -/
  | handles (a : List Nat)
  /-- a `C.int` or `C.long` -/
  | int (n : Int)
  /-- a `C.double` -/
  | double (x : Float64)
  /-- the address of a local `C.int` / `C.OGRErr` result variable -/
  | outInt
  /-- the address of a local `*C.char` variable the callee stores a buffer pointer in -/
  | outStr
  /-- a `*C.double` (or reinterpreted pointer) taken as `&a[0]` of a Go slice of float64 -/
  | doubles (a : List Float64)
  /-- an `unsafe.Pointer` to a Go `goGDALProgressFuncProxyArgs` value holding this
  progress function and this user-data value (Go values by identity, `0` is nil) -/
  | proxyArgs (progress data : Nat)
deriving DecidableEq, Repr

/-- A call into the native library: entry point and arguments in order. -/
structure NativeCall where
  fn : String
  args : List CArg
deriving DecidableEq, Repr

/-- What a native call hands back: its return value (read in the field matching
the C return type) and the value it stores through an integer out-parameter. -/
structure Reply where
  ptr : Nat
  int : Int
  double : Float64
  outInt : Int
deriving DecidableEq, Repr

/-- The native library, as seen by one wrapper invocation. -/
abbrev Native := NativeCall → Reply

/-- Something a wrapper does at the boundary. -/
inductive Event
  /-- the buffer `C.CString` returned -/
  | alloc (p : CStr)
  /-- call of `C.free` on the buffer at this address -/
  | free (addr : Nat)
  /-- a call of a native entry point -/
  | native (c : NativeCall)
deriving DecidableEq, Repr

/-- Go runtime failures a wrapper can raise. -/
inductive Fault
  /-- panic `index out of range [index] with length length` -/
  | indexOutOfRange (index length : Nat)
  /-- the loop bound of the model was exhausted (never happens, see `optsLoop_spec`) -/
  | outOfFuel
  /-- panic `cgo argument has Go pointer to unpinned Go pointer`, raised by the cgo
  pointer check when a Go pointer handed to C points to memory holding a Go pointer -/
  | cgoPointer
deriving DecidableEq, Repr

/-- A Go `error`: nil, or an error with this message. -/
abbrev GoError := Option String

/-- Go `type Dataset struct { cval C.GDALDatasetH }` (declared in a collaborator file). -/
structure Dataset where
  cval : Nat
deriving DecidableEq, Repr

/-- Conversion of a Go `int` to `C.int` (32-bit two's complement). -/
def cInt (n : Int) : Int := (n + 2 ^ 31) % 2 ^ 32 - 2 ^ 31

/-! ## Function activations -/

/-- The state of one wrapper activation: the next address the C allocator hands
out, the boundary events so far (oldest first), and the pending deferred calls
(most recently deferred first, the order in which they run). -/
structure Frame where
  next : Nat
  trace : List Event
  defers : List Event
deriving DecidableEq, Repr

/-- A fresh activation. -/
def Frame.init : Frame := ⟨1, [], []⟩

/-- Go `C.CString(s)`: a fresh buffer holding a copy of `s`. -/
def Frame.CString (fr : Frame) (s : String) : CStr × Frame :=
  (⟨fr.next, s⟩, ⟨fr.next + 1, fr.trace ++ [Event.alloc ⟨fr.next, s⟩], fr.defers⟩)

/-- Go `defer e`. -/
def Frame.defer (fr : Frame) (e : Event) : Frame :=
  ⟨fr.next, fr.trace, e :: fr.defers⟩

/-- A native call; its reply is `N c`. -/
def Frame.call (fr : Frame) (c : NativeCall) : Frame :=
  ⟨fr.next, fr.trace ++ [Event.native c], fr.defers⟩

/-- Leaving the function, by return or by panic: the deferred calls run. -/
def Frame.exit (fr : Frame) : List Event := fr.trace ++ fr.defers

/-- A step of a wrapper: a value and the new frame, or a fault and the frame at
the fault. -/
abbrev Step (α : Type) := Except (Fault × Frame) (α × Frame)

/-- A finished activation. -/
structure Run (α : Type) where
  trace : List Event
  result : Except Fault α

/-- Run the deferred calls and hand the outcome to the caller. -/
def Run.ofStep {α : Type} : Step α → Run α
  | .ok (a, fr) => ⟨fr.exit, .ok a⟩
  | .error (f, fr) => ⟨fr.exit, .error f⟩

/-- Sequencing: a fault ends the activation, otherwise the value and the frame
are handed on. -/
def Step.bind {α β : Type} (s : Step α) (f : α → Frame → Step β) : Step β :=
  match s with
  | .error e => .error e
  | .ok (a, fr) => f a fr

/-- Go `&a[0]`: the address of the first element, a view of the whole backing array;
panics on an empty slice. -/
def addrOfFirst {α : Type} (a : List α) (fr : Frame) : Step (List α) :=
  if 0 < a.length then .ok (a, fr) else .error (Fault.indexOutOfRange 0 a.length, fr)

/-! ## utilities.go -/

/-- Go `func stringArrayContains(array []string, needle string) bool` -/
def stringArrayContains : List String → String → Bool
  | [], _ => false
  | s :: rest, needle => if s = needle then true else stringArrayContains rest needle

/-- The marshaling loop shared by the five utilities
(`for i := 0; i < length; i++ { opts[i] = C.CString(options[i]); defer C.free(opts[i]) }`),
from index `i` on; the first argument bounds the number of iterations. -/
def optsLoop (options : List String) (length : Nat) :
    Nat → Nat → List CharPtr → Frame → Step (List CharPtr)
  | 0, _, _, fr => .error (Fault.outOfFuel, fr)
  | fuel + 1, i, opts, fr =>
    if i < length then
      match options[i]? with
      | none => .error (Fault.indexOutOfRange i options.length, fr)
      | some s =>
        if i < opts.length then
          optsLoop options length fuel (i + 1) (opts.set i (some (fr.CString s).1))
            ((fr.CString s).2.defer (Event.free (fr.CString s).1.addr))
        else .error (Fault.indexOutOfRange i opts.length, (fr.CString s).2)
    else .ok (opts, fr)

/-- The options block of each utility:
`length := len(options); opts := make([]*C.char, length+1); <loop>; opts[length] = nil`. -/
def marshalOptions (options : List String) (fr : Frame) : Step (List CharPtr) :=
  match optsLoop options options.length (options.length + 1) 0
      (List.replicate (options.length + 1) none) fr with
  | .error e => .error e
  | .ok (opts, fr) =>
    if options.length < opts.length then .ok (opts.set options.length none, fr)
    else .error (Fault.indexOutOfRange options.length opts.length, fr)

/-- The source-handle loop of `Warp` and `VectorTranslate`
(`for i, ds := range sourceDS { srcDS[i] = ds.cval }`), from index `i` on. -/
def fillHandles : List Dataset → Nat → List Nat → Except Fault (List Nat)
  | [], _, srcDS => .ok srcDS
  | ds :: rest, i, srcDS =>
    if i < srcDS.length then fillHandles rest (i + 1) (srcDS.set i ds.cval)
    else .error (Fault.indexOutOfRange i srcDS.length)

/-- Go `srcDS := make([]C.GDALDatasetH, len(sourceDS))` followed by the loop. -/
def marshalSources (sourceDS : List Dataset) (fr : Frame) : Step (List Nat) :=
  match fillHandles sourceDS 0 (List.replicate sourceDS.length 0) with
  | .error f => .error (f, fr)
  | .ok srcDS => .ok (srcDS, fr)

/-- The common tail `if cerr != 0 { return Dataset{}, fmt.Errorf("<msg>%d", cerr) };
return Dataset{ds}, nil`, where `ds` is the value the native call returned and `cerr`
the value it stored through `&cerr`. -/
def datasetOrError (msg : String) (r : Reply) : Dataset × GoError :=
  if r.outInt ≠ 0 then (⟨0⟩, some (msg ++ toString r.outInt))
  else (⟨r.ptr⟩, none)

/-- Go `func Warp(dstDS string, destDS *Dataset, sourceDS []Dataset, options []string)
(Dataset, error)` -/
def Warp (N : Native) (dstDS : String) (destDS : Option Dataset) (sourceDS : List Dataset)
    (options : List String) : Run (Dataset × GoError) :=
  let mem := decide (dstDS = "") && destDS.isNone
  let dstDS := if mem then "MEM:::" else dstDS
  let options :=
    if mem && !stringArrayContains options "-of" then ["-of", "MEM"] ++ options else options
  Run.ofStep (
    Step.bind (marshalOptions options Frame.init) fun opts fr =>
    Step.bind (addrOfFirst opts fr) fun opts0 fr =>
    let newCall : NativeCall := ⟨"GDALWarpAppOptionsNew", [CArg.strv opts0, CArg.ptr 0]⟩
    let warpopts := (N newCall).ptr
    let fr := (fr.call newCall).defer
      (Event.native ⟨"GDALWarpAppOptionsFree", [CArg.ptr warpopts]⟩)
    Step.bind (marshalSources sourceDS fr) fun srcDS fr =>
    let cdstDS := (fr.CString dstDS).1
    let fr := (fr.CString dstDS).2.defer (Event.free cdstDS.addr)
    let destDScval := match destDS with
      | some d => d.cval
      | none => 0
    Step.bind (addrOfFirst srcDS fr) fun srcDS0 fr =>
    let call : NativeCall := ⟨"GDALWarp", [CArg.str (some cdstDS), CArg.ptr destDScval,
      CArg.int (cInt sourceDS.length), CArg.handles srcDS0, CArg.ptr warpopts, CArg.outInt]⟩
    Except.ok (datasetOrError "warp failed with code " (N call), fr.call call))

/-- Go `func Translate(dstDS string, sourceDS Dataset, options []string) (Dataset, error)` -/
def Translate (N : Native) (dstDS : String) (sourceDS : Dataset) (options : List String) :
    Run (Dataset × GoError) :=
  let mem := decide (dstDS = "")
  let dstDS := if mem then "MEM:::" else dstDS
  let options :=
    if mem && !stringArrayContains options "-of" then ["-of", "MEM"] ++ options else options
  Run.ofStep (
    Step.bind (marshalOptions options Frame.init) fun opts fr =>
    Step.bind (addrOfFirst opts fr) fun opts0 fr =>
    let newCall : NativeCall := ⟨"GDALTranslateOptionsNew", [CArg.strv opts0, CArg.ptr 0]⟩
    let translateopts := (N newCall).ptr
    let fr := (fr.call newCall).defer
      (Event.native ⟨"GDALTranslateOptionsFree", [CArg.ptr translateopts]⟩)
    let cdstDS := (fr.CString dstDS).1
    let fr := (fr.CString dstDS).2.defer (Event.free cdstDS.addr)
    let call : NativeCall := ⟨"GDALTranslate", [CArg.str (some cdstDS),
      CArg.ptr sourceDS.cval, CArg.ptr translateopts, CArg.outInt]⟩
    Except.ok (datasetOrError "translate failed with code " (N call), fr.call call))

/-- Go `func VectorTranslate(dstDS string, sourceDS []Dataset, options []string)
(Dataset, error)` -/
def VectorTranslate (N : Native) (dstDS : String) (sourceDS : List Dataset)
    (options : List String) : Run (Dataset × GoError) :=
  let mem := decide (dstDS = "")
  let dstDS := if mem then "MEM:::" else dstDS
  let options :=
    if mem && !stringArrayContains options "-f" then ["-f", "MEM"] ++ options else options
  Run.ofStep (
    Step.bind (marshalOptions options Frame.init) fun opts fr =>
    Step.bind (addrOfFirst opts fr) fun opts0 fr =>
    let newCall : NativeCall :=
      ⟨"GDALVectorTranslateOptionsNew", [CArg.strv opts0, CArg.ptr 0]⟩
    let translateopts := (N newCall).ptr
    let fr := (fr.call newCall).defer
      (Event.native ⟨"GDALVectorTranslateOptionsFree", [CArg.ptr translateopts]⟩)
    Step.bind (marshalSources sourceDS fr) fun srcDS fr =>
    let cdstDS := (fr.CString dstDS).1
    let fr := (fr.CString dstDS).2.defer (Event.free cdstDS.addr)
    Step.bind (addrOfFirst srcDS fr) fun srcDS0 fr =>
    let call : NativeCall := ⟨"GDALVectorTranslate", [CArg.str (some cdstDS), CArg.ptr 0,
      CArg.int (cInt sourceDS.length), CArg.handles srcDS0, CArg.ptr translateopts,
      CArg.outInt]⟩
    Except.ok (datasetOrError "vector translate failed with code " (N call), fr.call call))

/-- Go `func Rasterize(dstDS string, sourceDS Dataset, options []string) (Dataset, error)` -/
def Rasterize (N : Native) (dstDS : String) (sourceDS : Dataset) (options : List String) :
    Run (Dataset × GoError) :=
  let mem := decide (dstDS = "")
  let dstDS := if mem then "MEM:::" else dstDS
  let options :=
    if mem && !stringArrayContains options "-f" then ["-of", "MEM"] ++ options else options
  Run.ofStep (
    Step.bind (marshalOptions options Frame.init) fun opts fr =>
    Step.bind (addrOfFirst opts fr) fun opts0 fr =>
    let newCall : NativeCall := ⟨"GDALRasterizeOptionsNew", [CArg.strv opts0, CArg.ptr 0]⟩
    let rasterizeopts := (N newCall).ptr
    let fr := (fr.call newCall).defer
      (Event.native ⟨"GDALRasterizeOptionsFree", [CArg.ptr rasterizeopts]⟩)
    let cdstDS := (fr.CString dstDS).1
    let fr := (fr.CString dstDS).2.defer (Event.free cdstDS.addr)
    let call : NativeCall := ⟨"GDALRasterize", [CArg.str (some cdstDS), CArg.ptr 0,
      CArg.ptr sourceDS.cval, CArg.ptr rasterizeopts, CArg.outInt]⟩
    Except.ok (datasetOrError "rasterize failed with code " (N call), fr.call call))

/-- Go `func DEMProcessing(dstDS string, sourceDS Dataset, processing string,
colorFileName string, options []string) (Dataset, error)` -/
def DEMProcessing (N : Native) (dstDS : String) (sourceDS : Dataset) (processing : String)
    (colorFileName : String) (options : List String) : Run (Dataset × GoError) :=
  let mem := decide (dstDS = "")
  let dstDS := if mem then "MEM:::" else dstDS
  let options :=
    if mem && !stringArrayContains options "-f" then ["-of", "MEM"] ++ options else options
  Run.ofStep (
    Step.bind (marshalOptions options Frame.init) fun opts fr =>
    Step.bind (addrOfFirst opts fr) fun opts0 fr =>
    let newCall : NativeCall :=
      ⟨"GDALDEMProcessingOptionsNew", [CArg.strv opts0, CArg.ptr 0]⟩
    let demprocessingopts := (N newCall).ptr
    let fr := (fr.call newCall).defer
      (Event.native ⟨"GDALDEMProcessingOptionsFree", [CArg.ptr demprocessingopts]⟩)
    let cdstDS := (fr.CString dstDS).1
    let fr := (fr.CString dstDS).2.defer (Event.free cdstDS.addr)
    let cprocessing := (fr.CString processing).1
    let fr := (fr.CString processing).2.defer (Event.free cprocessing.addr)
    let ccolorFileName := (fr.CString colorFileName).1
    let fr := (fr.CString colorFileName).2.defer (Event.free ccolorFileName.addr)
    let call : NativeCall := ⟨"GDALDEMProcessing", [CArg.str (some cdstDS),
      CArg.ptr sourceDS.cval, CArg.str (some cprocessing), CArg.str (some ccolorFileName),
      CArg.ptr demprocessingopts, CArg.outInt]⟩
    Except.ok (datasetOrError "demprocessing failed with code " (N call), fr.call call))

/-! ## osr.go -/

/-- Go `type SpatialReference struct { cval C.OGRSpatialReferenceH }` -/
structure SpatialReference where
  cval : Nat
deriving DecidableEq, Repr

/-- Go `func (sr SpatialReference) FromProj4(input string) error`.
`ErrFromOGRErr`, the status mapping of a collaborator file, is a parameter. -/
def SpatialReference.FromProj4 (N : Native) (ErrFromOGRErr : Int → GoError)
    (sr : SpatialReference) (input : String) : Run GoError :=
  let cString := (Frame.init.CString input).1
  let fr := (Frame.init.CString input).2.defer (Event.free cString.addr)
  let call : NativeCall := ⟨"OSRImportFromProj4", [CArg.ptr sr.cval, CArg.str (some cString)]⟩
  Run.ofStep (.ok (ErrFromOGRErr (N call).int, fr.call call))

/-- Go `func (sr SpatialReference) FromESRI(input string) error` -/
def SpatialReference.FromESRI (N : Native) (ErrFromOGRErr : Int → GoError)
    (sr : SpatialReference) (input : String) : Run GoError :=
  let cString := (Frame.init.CString input).1
  let fr := (Frame.init.CString input).2.defer (Event.free cString.addr)
  let call : NativeCall := ⟨"OSRImportFromProj4", [CArg.ptr sr.cval, CArg.str (some cString)]⟩
  Run.ofStep (.ok (ErrFromOGRErr (N call).int, fr.call call))

/-- Go `func (sr SpatialReference) FromXML(xml string) error` -/
def SpatialReference.FromXML (N : Native) (ErrFromOGRErr : Int → GoError)
    (sr : SpatialReference) (xml : String) : Run GoError :=
  let cXml := (Frame.init.CString xml).1
  let fr := (Frame.init.CString xml).2.defer (Event.free cXml.addr)
  let call : NativeCall := ⟨"OSRImportFromXML", [CArg.ptr sr.cval, CArg.str (some cXml)]⟩
  Run.ofStep (.ok (ErrFromOGRErr (N call).int, fr.call call))

/-- Go `func (sr SpatialReference) FromURL(url string) error` -/
def SpatialReference.FromURL (N : Native) (ErrFromOGRErr : Int → GoError)
    (sr : SpatialReference) (url : String) : Run GoError :=
  let cURL := (Frame.init.CString url).1
  let fr := (Frame.init.CString url).2.defer (Event.free cURL.addr)
  let call : NativeCall := ⟨"OSRImportFromXML", [CArg.ptr sr.cval, CArg.str (some cURL)]⟩
  Run.ofStep (.ok (ErrFromOGRErr (N call).int, fr.call call))

/-- Go `func (sr SpatialReference) SetProjectionParameter(name string, value float64) error` -/
def SpatialReference.SetProjectionParameter (N : Native) (ErrFromOGRErr : Int → GoError)
    (sr : SpatialReference) (name : String) (value : Float64) : Run GoError :=
  let cName := (Frame.init.CString name).1
  let fr := (Frame.init.CString name).2.defer (Event.free cName.addr)
  let call : NativeCall :=
    ⟨"OSRSetProjParm", [CArg.ptr sr.cval, CArg.str (some cName), CArg.double value]⟩
  Run.ofStep (.ok (ErrFromOGRErr (N call).int, fr.call call))

/-- Go `func (sr SpatialReference) ProjectionParameter(name string, defaultValue float64)
(float64, error)` -/
def SpatialReference.ProjectionParameter (N : Native) (ErrFromOGRErr : Int → GoError)
    (sr : SpatialReference) (name : String) (defaultValue : Float64) :
    Run (Float64 × GoError) :=
  let cName := (Frame.init.CString name).1
  let fr := (Frame.init.CString name).2.defer (Event.free cName.addr)
  let call : NativeCall := ⟨"OSRGetProjParm",
    [CArg.ptr sr.cval, CArg.str (some cName), CArg.double defaultValue, CArg.outInt]⟩
  Run.ofStep (.ok (((N call).double, ErrFromOGRErr (N call).outInt), fr.call call))

/-- Go `func (sr SpatialReference) SetNormalizedProjectionParameter(name string,
value float64) error` -/
def SpatialReference.SetNormalizedProjectionParameter (N : Native)
    (ErrFromOGRErr : Int → GoError) (sr : SpatialReference) (name : String)
    (value : Float64) : Run GoError :=
  let cName := (Frame.init.CString name).1
  let fr := (Frame.init.CString name).2.defer (Event.free cName.addr)
  let call : NativeCall :=
    ⟨"OSRSetNormProjParm", [CArg.ptr sr.cval, CArg.str (some cName), CArg.double value]⟩
  Run.ofStep (.ok (ErrFromOGRErr (N call).int, fr.call call))

/-- Go `func (sr SpatialReference) NormalizedProjectionParameter(name string,
defaultValue float64) (float64, error)` -/
def SpatialReference.NormalizedProjectionParameter (N : Native)
    (ErrFromOGRErr : Int → GoError) (sr : SpatialReference) (name : String)
    (defaultValue : Float64) : Run (Float64 × GoError) :=
  let cName := (Frame.init.CString name).1
  let fr := (Frame.init.CString name).2.defer (Event.free cName.addr)
  let call : NativeCall := ⟨"OSRGetProjParm",
    [CArg.ptr sr.cval, CArg.str (some cName), CArg.double defaultValue, CArg.outInt]⟩
  Run.ofStep (.ok (((N call).double, ErrFromOGRErr (N call).outInt), fr.call call))

/-! ## Reading a run -/

/-- The native call an event consists of, if it is one. -/
def Event.toCall : Event → Option NativeCall
  | Event.native c => some c
  | _ => none

/-- The native calls of a run, in order. -/
def Run.calls {α : Type} (r : Run α) : List NativeCall :=
  r.trace.filterMap Event.toCall

/-- The calls a run makes to one entry point. -/
def Run.callsTo {α : Type} (r : Run α) (fn : String) : List NativeCall :=
  r.calls.filter (fun c => decide (c.fn = fn))

/-- The Go strings marshaled into a `**C.char`: for each buffer before the first nil
pointer, the Go string `C.CString` copied into it, whole.  What C code reads of such a
buffer is `cRead` of it, see `cStringsRead`. -/
def cStrings : List CharPtr → List String
  | [] => []
  | none :: _ => []
  | some p :: rest => p.val :: cStrings rest

/-- The Go strings marshaled into the string array a call gets as its first argument,
when that is a string array (the marshaled option list; see `NativeCall.optionsRead`
for what the callee reads). -/
def NativeCall.optionList (c : NativeCall) : Option (List String) :=
  match c.args with
  | CArg.strv a :: _ => some (cStrings a)
  | _ => none

/-- The Go string marshaled into the C string a call gets as its first argument, when
that is a non-nil C string (the marshaled destination name; see
`NativeCall.destinationRead` for what the callee reads). -/
def NativeCall.destination (c : NativeCall) : Option String :=
  match c.args with
  | CArg.str (some p) :: _ => some p.val
  | _ => none

/-- What C code reads of a buffer made by `C.CString(s)`: the characters of `s` before
its first NUL, the buffer being the bytes of `s` followed by a terminating NUL. -/
def cRead (s : String) : String :=
  ⟨s.data.takeWhile (fun c => decide (c ≠ Char.ofNat 0))⟩

/-- Whether a Go string holds a NUL character. -/
def hasNul (s : String) : Bool := s.data.contains (Char.ofNat 0)

/-- The strings native code reads from a `**C.char`: every buffer before the first nil
pointer, each up to its first NUL. -/
def cStringsRead : List CharPtr → List String
  | [] => []
  | none :: _ => []
  | some p :: rest => cRead p.val :: cStringsRead rest

/-- The option list the callee reads from its first argument, when that is a string
array. -/
def NativeCall.optionsRead (c : NativeCall) : Option (List String) :=
  match c.args with
  | CArg.strv a :: _ => some (cStringsRead a)
  | _ => none

/-- The destination name the callee reads from its first argument, when that is a
non-nil C string. -/
def NativeCall.destinationRead (c : NativeCall) : Option String :=
  match c.args with
  | CArg.str (some p) :: _ => some (cRead p.val)
  | _ => none


/-! ## The marshaling loops, unrolled -/

/-- The buffers `C.CString` returns for consecutive strings when the allocator
starts at `base`. -/
def cstrsFrom : Nat → List String → List CStr
  | _, [] => []
  | base, s :: rest => ⟨base, s⟩ :: cstrsFrom (base + 1) rest

/-- The frame after marshaling `options` from frame `fr`. -/
def frameAfterOptions (options : List String) (fr : Frame) : Frame :=
  ⟨fr.next + options.length,
   fr.trace ++ (cstrsFrom fr.next options).map Event.alloc,
   ((cstrsFrom fr.next options).map (fun p => Event.free p.addr)).reverse ++ fr.defers⟩

/-! ## The utilities in closed form

Each utility, once its loops are unrolled by the lemmas above, is a fixed
sequence of boundary events determined by the destination and option list it
works with. -/

/-- The `opts` array built for an option list by a fresh activation. -/
def argvOf (opts : List String) : List CharPtr := (cstrsFrom 1 opts).map some ++ [none]

/-- The allocations made for an option list by a fresh activation. -/
def optionAllocs (opts : List String) : List Event := (cstrsFrom 1 opts).map Event.alloc

/-- The deferred releases of those allocations, in the order they run. -/
def optionFrees (opts : List String) : List Event :=
  ((cstrsFrom 1 opts).map (fun p => Event.free p.addr)).reverse

/-- Closed form of `Warp` on the destination and options it works with. -/
def warpRun (N : Native) (dst : String) (destDS : Option Dataset) (sourceDS : List Dataset)
    (opts : List String) : Run (Dataset × GoError) :=
  let newCall : NativeCall := ⟨"GDALWarpAppOptionsNew", [CArg.strv (argvOf opts), CArg.ptr 0]⟩
  let cdst : CStr := ⟨1 + opts.length, dst⟩
  let destDScval : Nat := match destDS with
    | some d => d.cval
    | none => 0
  let call : NativeCall := ⟨"GDALWarp",
    [CArg.str (some cdst), CArg.ptr destDScval, CArg.int (cInt sourceDS.length),
      CArg.handles (sourceDS.map Dataset.cval), CArg.ptr (N newCall).ptr, CArg.outInt]⟩
  ⟨optionAllocs opts ++ [Event.native newCall, Event.alloc cdst]
      ++ (if sourceDS = [] then [] else [Event.native call])
      ++ [Event.free cdst.addr,
          Event.native ⟨"GDALWarpAppOptionsFree", [CArg.ptr (N newCall).ptr]⟩]
      ++ optionFrees opts,
    if sourceDS = [] then .error (Fault.indexOutOfRange 0 0)
    else .ok (datasetOrError "warp failed with code " (N call))⟩

/-- Closed form of `Translate`. -/
def translateRun (N : Native) (dst : String) (src : Dataset) (opts : List String) :
    Run (Dataset × GoError) :=
  let newCall : NativeCall :=
    ⟨"GDALTranslateOptionsNew", [CArg.strv (argvOf opts), CArg.ptr 0]⟩
  let cdst : CStr := ⟨1 + opts.length, dst⟩
  let call : NativeCall := ⟨"GDALTranslate",
    [CArg.str (some cdst), CArg.ptr src.cval, CArg.ptr (N newCall).ptr, CArg.outInt]⟩
  ⟨optionAllocs opts ++ [Event.native newCall, Event.alloc cdst, Event.native call,
      Event.free cdst.addr,
      Event.native ⟨"GDALTranslateOptionsFree", [CArg.ptr (N newCall).ptr]⟩]
      ++ optionFrees opts,
    .ok (datasetOrError "translate failed with code " (N call))⟩

/-- Closed form of `VectorTranslate`. -/
def vectorTranslateRun (N : Native) (dst : String) (sourceDS : List Dataset)
    (opts : List String) : Run (Dataset × GoError) :=
  let newCall : NativeCall :=
    ⟨"GDALVectorTranslateOptionsNew", [CArg.strv (argvOf opts), CArg.ptr 0]⟩
  let cdst : CStr := ⟨1 + opts.length, dst⟩
  let call : NativeCall := ⟨"GDALVectorTranslate",
    [CArg.str (some cdst), CArg.ptr 0, CArg.int (cInt sourceDS.length),
      CArg.handles (sourceDS.map Dataset.cval), CArg.ptr (N newCall).ptr, CArg.outInt]⟩
  ⟨optionAllocs opts ++ [Event.native newCall, Event.alloc cdst]
      ++ (if sourceDS = [] then [] else [Event.native call])
      ++ [Event.free cdst.addr,
          Event.native ⟨"GDALVectorTranslateOptionsFree", [CArg.ptr (N newCall).ptr]⟩]
      ++ optionFrees opts,
    if sourceDS = [] then .error (Fault.indexOutOfRange 0 0)
    else .ok (datasetOrError "vector translate failed with code " (N call))⟩

/-- Closed form of `Rasterize`. -/
def rasterizeRun (N : Native) (dst : String) (src : Dataset) (opts : List String) :
    Run (Dataset × GoError) :=
  let newCall : NativeCall :=
    ⟨"GDALRasterizeOptionsNew", [CArg.strv (argvOf opts), CArg.ptr 0]⟩
  let cdst : CStr := ⟨1 + opts.length, dst⟩
  let call : NativeCall := ⟨"GDALRasterize",
    [CArg.str (some cdst), CArg.ptr 0, CArg.ptr src.cval, CArg.ptr (N newCall).ptr,
      CArg.outInt]⟩
  ⟨optionAllocs opts ++ [Event.native newCall, Event.alloc cdst, Event.native call,
      Event.free cdst.addr,
      Event.native ⟨"GDALRasterizeOptionsFree", [CArg.ptr (N newCall).ptr]⟩]
      ++ optionFrees opts,
    .ok (datasetOrError "rasterize failed with code " (N call))⟩

/-- Closed form of `DEMProcessing`. -/
def demProcessingRun (N : Native) (dst : String) (src : Dataset) (processing : String)
    (colorFileName : String) (opts : List String) : Run (Dataset × GoError) :=
  let newCall : NativeCall :=
    ⟨"GDALDEMProcessingOptionsNew", [CArg.strv (argvOf opts), CArg.ptr 0]⟩
  let cdst : CStr := ⟨1 + opts.length, dst⟩
  let cproc : CStr := ⟨2 + opts.length, processing⟩
  let ccolor : CStr := ⟨3 + opts.length, colorFileName⟩
  let call : NativeCall := ⟨"GDALDEMProcessing",
    [CArg.str (some cdst), CArg.ptr src.cval, CArg.str (some cproc), CArg.str (some ccolor),
      CArg.ptr (N newCall).ptr, CArg.outInt]⟩
  ⟨optionAllocs opts ++ [Event.native newCall, Event.alloc cdst, Event.alloc cproc,
      Event.alloc ccolor, Event.native call,
      Event.free ccolor.addr, Event.free cproc.addr, Event.free cdst.addr,
      Event.native ⟨"GDALDEMProcessingOptionsFree", [CArg.ptr (N newCall).ptr]⟩]
      ++ optionFrees opts,
    .ok (datasetOrError "demprocessing failed with code " (N call))⟩

/-! ## osr.go: projection setters

`BoolToCInt`, a helper of a collaborator file, is a parameter where it is used. -/

/-- Go `func (sr SpatialReference) SetUTM(zone int, north bool) error` -/
def SpatialReference.SetUTM (N : Native) (ErrFromOGRErr : Int → GoError)
    (BoolToCInt : Bool → Int) (sr : SpatialReference) (zone : Int) (north : Bool) :
    Run GoError :=
  let call : NativeCall :=
    ⟨"OSRSetUTM", [CArg.ptr sr.cval, CArg.int (cInt zone), CArg.int (BoolToCInt north)]⟩
  Run.ofStep (.ok (ErrFromOGRErr (N call).int, Frame.init.call call))

/-- Go `func (sr SpatialReference) SetStatePlane(zone int, nad83 bool) error` -/
def SpatialReference.SetStatePlane (N : Native) (ErrFromOGRErr : Int → GoError)
    (BoolToCInt : Bool → Int) (sr : SpatialReference) (zone : Int) (nad83 : Bool) :
    Run GoError :=
  let call : NativeCall := ⟨"OSRSetStatePlane",
    [CArg.ptr sr.cval, CArg.int (cInt zone), CArg.int (BoolToCInt nad83)]⟩
  Run.ofStep (.ok (ErrFromOGRErr (N call).int, Frame.init.call call))

/-- Go `func (sr SpatialReference) SetStatePlaneWithUnits(zone int, nad83 bool,
unitName string, factor float64) error` -/
def SpatialReference.SetStatePlaneWithUnits (N : Native) (ErrFromOGRErr : Int → GoError)
    (BoolToCInt : Bool → Int) (sr : SpatialReference) (zone : Int) (nad83 : Bool)
    (unitName : String) (factor : Float64) : Run GoError :=
  let cUnitName := (Frame.init.CString unitName).1
  let fr := (Frame.init.CString unitName).2.defer (Event.free cUnitName.addr)
  let call : NativeCall := ⟨"OSRSetStatePlaneWithUnits",
    [CArg.ptr sr.cval, CArg.int (cInt zone), CArg.int (BoolToCInt nad83),
      CArg.str (some cUnitName), CArg.double factor]⟩
  Run.ofStep (.ok (ErrFromOGRErr (N call).int, fr.call call))

/-- Go `func (sr SpatialReference) SetACEA(stdp1, stdp2, centerLat, centerLong,
falseEasting, falseNorthing float64) error` -/
def SpatialReference.SetACEA (N : Native) (ErrFromOGRErr : Int → GoError)
    (sr : SpatialReference)
    (stdp1 stdp2 centerLat centerLong falseEasting falseNorthing : Float64) : Run GoError :=
  let call : NativeCall := ⟨"OSRSetACEA", [CArg.ptr sr.cval, CArg.double stdp1,
      CArg.double stdp2, CArg.double centerLat, CArg.double centerLong,
      CArg.double falseEasting, CArg.double falseNorthing]⟩
  Run.ofStep (.ok (ErrFromOGRErr (N call).int, Frame.init.call call))

/-- Go `func (sr SpatialReference) SetAE(centerLat, centerLong, falseEasting,
falseNorthing float64) error` -/
def SpatialReference.SetAE (N : Native) (ErrFromOGRErr : Int → GoError)
    (sr : SpatialReference)
    (centerLat centerLong falseEasting falseNorthing : Float64) : Run GoError :=
  let call : NativeCall := ⟨"OSRSetAE", [CArg.ptr sr.cval, CArg.double centerLat,
      CArg.double centerLong, CArg.double falseEasting, CArg.double falseNorthing]⟩
  Run.ofStep (.ok (ErrFromOGRErr (N call).int, Frame.init.call call))

/-- Go `func (sr SpatialReference) SetBonne(standardParallel, centralMeridian,
falseEasting, falseNorthing float64) error` -/
def SpatialReference.SetBonne (N : Native) (ErrFromOGRErr : Int → GoError)
    (sr : SpatialReference)
    (standardParallel centralMeridian falseEasting falseNorthing : Float64) : Run GoError :=
  let call : NativeCall := ⟨"OSRSetBonne", [CArg.ptr sr.cval, CArg.double standardParallel,
      CArg.double centralMeridian, CArg.double falseEasting, CArg.double falseNorthing]⟩
  Run.ofStep (.ok (ErrFromOGRErr (N call).int, Frame.init.call call))

/-- Go `func (sr SpatialReference) SetCEA(stdp1, centralMeridian, falseEasting,
falseNorthing float64) error` -/
def SpatialReference.SetCEA (N : Native) (ErrFromOGRErr : Int → GoError)
    (sr : SpatialReference)
    (stdp1 centralMeridian falseEasting falseNorthing : Float64) : Run GoError :=
  let call : NativeCall := ⟨"OSRSetCEA", [CArg.ptr sr.cval, CArg.double stdp1,
      CArg.double centralMeridian, CArg.double falseEasting, CArg.double falseNorthing]⟩
  Run.ofStep (.ok (ErrFromOGRErr (N call).int, Frame.init.call call))

/-- Go `func (sr SpatialReference) SetCS(centerLat, centerLong, falseEasting,
falseNorthing float64) error` -/
def SpatialReference.SetCS (N : Native) (ErrFromOGRErr : Int → GoError)
    (sr : SpatialReference)
    (centerLat centerLong falseEasting falseNorthing : Float64) : Run GoError :=
  let call : NativeCall := ⟨"OSRSetCS", [CArg.ptr sr.cval, CArg.double centerLat,
      CArg.double centerLong, CArg.double falseEasting, CArg.double falseNorthing]⟩
  Run.ofStep (.ok (ErrFromOGRErr (N call).int, Frame.init.call call))

/-- Go `func (sr SpatialReference) SetEC(stdp1, stdp2, centerLat, centerLong,
falseEasting, falseNorthing float64) error` -/
def SpatialReference.SetEC (N : Native) (ErrFromOGRErr : Int → GoError)
    (sr : SpatialReference)
    (stdp1 stdp2 centerLat centerLong falseEasting falseNorthing : Float64) : Run GoError :=
  let call : NativeCall := ⟨"OSRSetEC", [CArg.ptr sr.cval, CArg.double stdp1,
      CArg.double stdp2, CArg.double centerLat, CArg.double centerLong,
      CArg.double falseEasting, CArg.double falseNorthing]⟩
  Run.ofStep (.ok (ErrFromOGRErr (N call).int, Frame.init.call call))

/-- Go `func (sr SpatialReference) SetEckert(variation int, centralMeridian, falseEasting,
falseNorthing float64) error` -/
def SpatialReference.SetEckert (N : Native) (ErrFromOGRErr : Int → GoError)
    (sr : SpatialReference)
    (variation : Int) (centralMeridian falseEasting falseNorthing : Float64) : Run GoError :=
  let call : NativeCall := ⟨"OSRSetEckert", [CArg.ptr sr.cval, CArg.int (cInt variation),
      CArg.double centralMeridian, CArg.double falseEasting, CArg.double falseNorthing]⟩
  Run.ofStep (.ok (ErrFromOGRErr (N call).int, Frame.init.call call))

/-- Go `func (sr SpatialReference) SetEquirectangular(centerLat, centerLong, falseEasting,
falseNorthing float64) error` -/
def SpatialReference.SetEquirectangular (N : Native) (ErrFromOGRErr : Int → GoError)
    (sr : SpatialReference)
    (centerLat centerLong falseEasting falseNorthing : Float64) : Run GoError :=
  let call : NativeCall := ⟨"OSRSetEquirectangular", [CArg.ptr sr.cval, CArg.double centerLat,
      CArg.double centerLong, CArg.double falseEasting, CArg.double falseNorthing]⟩
  Run.ofStep (.ok (ErrFromOGRErr (N call).int, Frame.init.call call))

/-- Go `func (sr SpatialReference) SetEquirectangularGeneralized(centerLat, centerLong,
psuedoStdParallel, falseEasting, falseNorthing float64) error` -/
def SpatialReference.SetEquirectangularGeneralized (N : Native) (ErrFromOGRErr : Int → GoError)
    (sr : SpatialReference)
    (centerLat centerLong psuedoStdParallel falseEasting falseNorthing : Float64) : Run GoError :=
  let call : NativeCall := ⟨"OSRSetEquirectangular2", [CArg.ptr sr.cval, CArg.double centerLat,
      CArg.double centerLong, CArg.double psuedoStdParallel, CArg.double falseEasting,
      CArg.double falseNorthing]⟩
  Run.ofStep (.ok (ErrFromOGRErr (N call).int, Frame.init.call call))

/-- Go `func (sr SpatialReference) SetGS(centralMeridian, falseEasting, falseNorthing
float64) error` -/
def SpatialReference.SetGS (N : Native) (ErrFromOGRErr : Int → GoError)
    (sr : SpatialReference)
    (centralMeridian falseEasting falseNorthing : Float64) : Run GoError :=
  let call : NativeCall := ⟨"OSRSetGS", [CArg.ptr sr.cval, CArg.double centralMeridian,
      CArg.double falseEasting, CArg.double falseNorthing]⟩
  Run.ofStep (.ok (ErrFromOGRErr (N call).int, Frame.init.call call))

/-- Go `func (sr SpatialReference) SetGH(centralMeridian, falseEasting, falseNorthing
float64) error` -/
def SpatialReference.SetGH (N : Native) (ErrFromOGRErr : Int → GoError)
    (sr : SpatialReference)
    (centralMeridian falseEasting falseNorthing : Float64) : Run GoError :=
  let call : NativeCall := ⟨"OSRSetGH", [CArg.ptr sr.cval, CArg.double centralMeridian,
      CArg.double falseEasting, CArg.double falseNorthing]⟩
  Run.ofStep (.ok (ErrFromOGRErr (N call).int, Frame.init.call call))

/-- Go `func (sr SpatialReference) SetIGH() error` -/
def SpatialReference.SetIGH (N : Native) (ErrFromOGRErr : Int → GoError)
    (sr : SpatialReference) : Run GoError :=
  let call : NativeCall := ⟨"OSRSetIGH", [CArg.ptr sr.cval]⟩
  Run.ofStep (.ok (ErrFromOGRErr (N call).int, Frame.init.call call))

/-- Go `func (sr SpatialReference) SetGEOS(centralMeridian, satelliteHeight, falseEasting,
falseNorthing float64) error` -/
def SpatialReference.SetGEOS (N : Native) (ErrFromOGRErr : Int → GoError)
    (sr : SpatialReference)
    (centralMeridian satelliteHeight falseEasting falseNorthing : Float64) : Run GoError :=
  let call : NativeCall := ⟨"OSRSetGEOS", [CArg.ptr sr.cval, CArg.double centralMeridian,
      CArg.double satelliteHeight, CArg.double falseEasting, CArg.double falseNorthing]⟩
  Run.ofStep (.ok (ErrFromOGRErr (N call).int, Frame.init.call call))

/-- Go `func (sr SpatialReference) SetGSTM(centerLat, centerLong, scale, falseEasting,
falseNorthing float64) error` -/
def SpatialReference.SetGSTM (N : Native) (ErrFromOGRErr : Int → GoError)
    (sr : SpatialReference)
    (centerLat centerLong scale falseEasting falseNorthing : Float64) : Run GoError :=
  let call : NativeCall := ⟨"OSRSetGaussSchreiberTMercator", [CArg.ptr sr.cval,
      CArg.double centerLat, CArg.double centerLong, CArg.double scale,
      CArg.double falseEasting, CArg.double falseNorthing]⟩
  Run.ofStep (.ok (ErrFromOGRErr (N call).int, Frame.init.call call))

/-- Go `func (sr SpatialReference) SetGnomonic(centerLat, centerLong, falseEasting,
falseNorthing float64) error` -/
def SpatialReference.SetGnomonic (N : Native) (ErrFromOGRErr : Int → GoError)
    (sr : SpatialReference)
    (centerLat centerLong falseEasting falseNorthing : Float64) : Run GoError :=
  let call : NativeCall := ⟨"OSRSetGnomonic", [CArg.ptr sr.cval, CArg.double centerLat,
      CArg.double centerLong, CArg.double falseEasting, CArg.double falseNorthing]⟩
  Run.ofStep (.ok (ErrFromOGRErr (N call).int, Frame.init.call call))

/-- Go `func (sr SpatialReference) SetHOM(centerLat, centerLong, azimuth, rectToSkew,
scale, falseEasting, falseNorthing float64) error` -/
def SpatialReference.SetHOM (N : Native) (ErrFromOGRErr : Int → GoError)
    (sr : SpatialReference)
    (centerLat centerLong azimuth rectToSkew scale falseEasting falseNorthing : Float64) : Run GoError :=
  let call : NativeCall := ⟨"OSRSetHOM", [CArg.ptr sr.cval, CArg.double centerLat,
      CArg.double centerLong, CArg.double azimuth, CArg.double rectToSkew, CArg.double scale,
      CArg.double falseEasting, CArg.double falseNorthing]⟩
  Run.ofStep (.ok (ErrFromOGRErr (N call).int, Frame.init.call call))

/-- Go `func (sr SpatialReference) SetHOM2PNO(centerLat, lat1, long1, lat2, long2, scale,
falseEasting, falseNorthing float64) error` -/
def SpatialReference.SetHOM2PNO (N : Native) (ErrFromOGRErr : Int → GoError)
    (sr : SpatialReference)
    (centerLat lat1 long1 lat2 long2 scale falseEasting falseNorthing : Float64) : Run GoError :=
  let call : NativeCall := ⟨"OSRSetHOM2PNO", [CArg.ptr sr.cval, CArg.double centerLat,
      CArg.double lat1, CArg.double long1, CArg.double lat2, CArg.double long2,
      CArg.double scale, CArg.double falseEasting, CArg.double falseNorthing]⟩
  Run.ofStep (.ok (ErrFromOGRErr (N call).int, Frame.init.call call))

/-- Go `func (sr SpatialReference) SetIWMPolyconic(lat1, lat2, centerLong, falseEasting,
falseNorthing float64) error` -/
def SpatialReference.SetIWMPolyconic (N : Native) (ErrFromOGRErr : Int → GoError)
    (sr : SpatialReference)
    (lat1 lat2 centerLong falseEasting falseNorthing : Float64) : Run GoError :=
  let call : NativeCall := ⟨"OSRSetIWMPolyconic", [CArg.ptr sr.cval, CArg.double lat1,
      CArg.double lat2, CArg.double centerLong, CArg.double falseEasting,
      CArg.double falseNorthing]⟩
  Run.ofStep (.ok (ErrFromOGRErr (N call).int, Frame.init.call call))

/-- Go `func (sr SpatialReference) SetKrovak(centerLat, centerLong, azimuth,
psuedoStdParallel, scale, falseEasting, falseNorthing float64) error` -/
def SpatialReference.SetKrovak (N : Native) (ErrFromOGRErr : Int → GoError)
    (sr : SpatialReference)
    (centerLat centerLong azimuth psuedoStdParallel scale falseEasting falseNorthing : Float64) : Run GoError :=
  let call : NativeCall := ⟨"OSRSetKrovak", [CArg.ptr sr.cval, CArg.double centerLat,
      CArg.double centerLong, CArg.double azimuth, CArg.double psuedoStdParallel,
      CArg.double scale, CArg.double falseEasting, CArg.double falseNorthing]⟩
  Run.ofStep (.ok (ErrFromOGRErr (N call).int, Frame.init.call call))

/-- Go `func (sr SpatialReference) SetLAEA(centerLat, centerLong, falseEasting,
falseNorthing float64) error` -/
def SpatialReference.SetLAEA (N : Native) (ErrFromOGRErr : Int → GoError)
    (sr : SpatialReference)
    (centerLat centerLong falseEasting falseNorthing : Float64) : Run GoError :=
  let call : NativeCall := ⟨"OSRSetLAEA", [CArg.ptr sr.cval, CArg.double centerLat,
      CArg.double centerLong, CArg.double falseEasting, CArg.double falseNorthing]⟩
  Run.ofStep (.ok (ErrFromOGRErr (N call).int, Frame.init.call call))

/-- Go `func (sr SpatialReference) SetLCC(stdp1, stdp2, centerLat, centerLong,
falseEasting, falseNorthing float64) error` -/
def SpatialReference.SetLCC (N : Native) (ErrFromOGRErr : Int → GoError)
    (sr : SpatialReference)
    (stdp1 stdp2 centerLat centerLong falseEasting falseNorthing : Float64) : Run GoError :=
  let call : NativeCall := ⟨"OSRSetLCC", [CArg.ptr sr.cval, CArg.double stdp1,
      CArg.double stdp2, CArg.double centerLat, CArg.double centerLong,
      CArg.double falseEasting, CArg.double falseNorthing]⟩
  Run.ofStep (.ok (ErrFromOGRErr (N call).int, Frame.init.call call))

/-- Go `func (sr SpatialReference) SetLCC1SP(centerLat, centerLong, scale, falseEasting,
falseNorthing float64) error` -/
def SpatialReference.SetLCC1SP (N : Native) (ErrFromOGRErr : Int → GoError)
    (sr : SpatialReference)
    (centerLat centerLong scale falseEasting falseNorthing : Float64) : Run GoError :=
  let call : NativeCall := ⟨"OSRSetLCC1SP", [CArg.ptr sr.cval, CArg.double centerLat,
      CArg.double centerLong, CArg.double scale, CArg.double falseEasting,
      CArg.double falseNorthing]⟩
  Run.ofStep (.ok (ErrFromOGRErr (N call).int, Frame.init.call call))

/-- Go `func (sr SpatialReference) SetLCCB(stdp1, stdp2, centerLat, centerLong,
falseEasting, falseNorthing float64) error` -/
def SpatialReference.SetLCCB (N : Native) (ErrFromOGRErr : Int → GoError)
    (sr : SpatialReference)
    (stdp1 stdp2 centerLat centerLong falseEasting falseNorthing : Float64) : Run GoError :=
  let call : NativeCall := ⟨"OSRSetLCCB", [CArg.ptr sr.cval, CArg.double stdp1,
      CArg.double stdp2, CArg.double centerLat, CArg.double centerLong,
      CArg.double falseEasting, CArg.double falseNorthing]⟩
  Run.ofStep (.ok (ErrFromOGRErr (N call).int, Frame.init.call call))

/-- Go `func (sr SpatialReference) SetMC(centerLat, centerLong, falseEasting,
falseNorthing float64) error` -/
def SpatialReference.SetMC (N : Native) (ErrFromOGRErr : Int → GoError)
    (sr : SpatialReference)
    (centerLat centerLong falseEasting falseNorthing : Float64) : Run GoError :=
  let call : NativeCall := ⟨"OSRSetMC", [CArg.ptr sr.cval, CArg.double centerLat,
      CArg.double centerLong, CArg.double falseEasting, CArg.double falseNorthing]⟩
  Run.ofStep (.ok (ErrFromOGRErr (N call).int, Frame.init.call call))

/-- Go `func (sr SpatialReference) SetMercator(centerLat, centerLong, scale, falseEasting,
falseNorthing float64) error` -/
def SpatialReference.SetMercator (N : Native) (ErrFromOGRErr : Int → GoError)
    (sr : SpatialReference)
    (centerLat centerLong scale falseEasting falseNorthing : Float64) : Run GoError :=
  let call : NativeCall := ⟨"OSRSetMercator", [CArg.ptr sr.cval, CArg.double centerLat,
      CArg.double centerLong, CArg.double scale, CArg.double falseEasting,
      CArg.double falseNorthing]⟩
  Run.ofStep (.ok (ErrFromOGRErr (N call).int, Frame.init.call call))

/-- Go `func (sr SpatialReference) SetMollweide(centralMeridian, falseEasting,
falseNorthing float64) error` -/
def SpatialReference.SetMollweide (N : Native) (ErrFromOGRErr : Int → GoError)
    (sr : SpatialReference)
    (centralMeridian falseEasting falseNorthing : Float64) : Run GoError :=
  let call : NativeCall := ⟨"OSRSetMollweide", [CArg.ptr sr.cval, CArg.double centralMeridian,
      CArg.double falseEasting, CArg.double falseNorthing]⟩
  Run.ofStep (.ok (ErrFromOGRErr (N call).int, Frame.init.call call))

/-- Go `func (sr SpatialReference) SetNZMG(centerLat, centerLong, falseEasting,
falseNorthing float64) error` -/
def SpatialReference.SetNZMG (N : Native) (ErrFromOGRErr : Int → GoError)
    (sr : SpatialReference)
    (centerLat centerLong falseEasting falseNorthing : Float64) : Run GoError :=
  let call : NativeCall := ⟨"OSRSetNZMG", [CArg.ptr sr.cval, CArg.double centerLat,
      CArg.double centerLong, CArg.double falseEasting, CArg.double falseNorthing]⟩
  Run.ofStep (.ok (ErrFromOGRErr (N call).int, Frame.init.call call))

/-- Go `func (sr SpatialReference) SetOS(originLat, meridian, scale, falseEasting,
falseNorthing float64) error` -/
def SpatialReference.SetOS (N : Native) (ErrFromOGRErr : Int → GoError)
    (sr : SpatialReference)
    (originLat meridian scale falseEasting falseNorthing : Float64) : Run GoError :=
  let call : NativeCall := ⟨"OSRSetOS", [CArg.ptr sr.cval, CArg.double originLat,
      CArg.double meridian, CArg.double scale, CArg.double falseEasting,
      CArg.double falseNorthing]⟩
  Run.ofStep (.ok (ErrFromOGRErr (N call).int, Frame.init.call call))

/-- Go `func (sr SpatialReference) SetOrthographic(centerLat, centerLong, falseEasting,
falseNorthing float64) error` -/
def SpatialReference.SetOrthographic (N : Native) (ErrFromOGRErr : Int → GoError)
    (sr : SpatialReference)
    (centerLat centerLong falseEasting falseNorthing : Float64) : Run GoError :=
  let call : NativeCall := ⟨"OSRSetOrthographic", [CArg.ptr sr.cval, CArg.double centerLat,
      CArg.double centerLong, CArg.double falseEasting, CArg.double falseNorthing]⟩
  Run.ofStep (.ok (ErrFromOGRErr (N call).int, Frame.init.call call))

/-- Go `func (sr SpatialReference) SetPolyconic(centerLat, centerLong, falseEasting,
falseNorthing float64) error` -/
def SpatialReference.SetPolyconic (N : Native) (ErrFromOGRErr : Int → GoError)
    (sr : SpatialReference)
    (centerLat centerLong falseEasting falseNorthing : Float64) : Run GoError :=
  let call : NativeCall := ⟨"OSRSetPolyconic", [CArg.ptr sr.cval, CArg.double centerLat,
      CArg.double centerLong, CArg.double falseEasting, CArg.double falseNorthing]⟩
  Run.ofStep (.ok (ErrFromOGRErr (N call).int, Frame.init.call call))

/-- Go `func (sr SpatialReference) SetPS(centerLat, centerLong, scale, falseEasting,
falseNorthing float64) error` -/
def SpatialReference.SetPS (N : Native) (ErrFromOGRErr : Int → GoError)
    (sr : SpatialReference)
    (centerLat centerLong scale falseEasting falseNorthing : Float64) : Run GoError :=
  let call : NativeCall := ⟨"OSRSetPS", [CArg.ptr sr.cval, CArg.double centerLat,
      CArg.double centerLong, CArg.double scale, CArg.double falseEasting,
      CArg.double falseNorthing]⟩
  Run.ofStep (.ok (ErrFromOGRErr (N call).int, Frame.init.call call))

/-- Go `func (sr SpatialReference) SetRobinson(centerLong, falseEasting, falseNorthing
float64) error` -/
def SpatialReference.SetRobinson (N : Native) (ErrFromOGRErr : Int → GoError)
    (sr : SpatialReference) (centerLong falseEasting falseNorthing : Float64) : Run GoError :=
  let call : NativeCall := ⟨"OSRSetRobinson", [CArg.ptr sr.cval, CArg.double centerLong,
      CArg.double falseEasting, CArg.double falseNorthing]⟩
  Run.ofStep (.ok (ErrFromOGRErr (N call).int, Frame.init.call call))

/-- Go `func (sr SpatialReference) SetSinusoidal(centerLong, falseEasting, falseNorthing
float64) error` -/
def SpatialReference.SetSinusoidal (N : Native) (ErrFromOGRErr : Int → GoError)
    (sr : SpatialReference) (centerLong falseEasting falseNorthing : Float64) : Run GoError :=
  let call : NativeCall := ⟨"OSRSetSinusoidal", [CArg.ptr sr.cval, CArg.double centerLong,
      CArg.double falseEasting, CArg.double falseNorthing]⟩
  Run.ofStep (.ok (ErrFromOGRErr (N call).int, Frame.init.call call))

/-- Go `func (sr SpatialReference) SetStereographic(centerLat, centerLong, scale,
falseEasting, falseNorthing float64) error` -/
def SpatialReference.SetStereographic (N : Native) (ErrFromOGRErr : Int → GoError)
    (sr : SpatialReference)
    (centerLat centerLong scale falseEasting falseNorthing : Float64) : Run GoError :=
  let call : NativeCall := ⟨"OSRSetStereographic", [CArg.ptr sr.cval, CArg.double centerLat,
      CArg.double centerLong, CArg.double scale, CArg.double falseEasting,
      CArg.double falseNorthing]⟩
  Run.ofStep (.ok (ErrFromOGRErr (N call).int, Frame.init.call call))

/-- Go `func (sr SpatialReference) SetSOC(latitudeOfOrigin, centralMeridian, falseEasting,
falseNorthing float64) error` -/
def SpatialReference.SetSOC (N : Native) (ErrFromOGRErr : Int → GoError)
    (sr : SpatialReference)
    (latitudeOfOrigin centralMeridian falseEasting falseNorthing : Float64) : Run GoError :=
  let call : NativeCall := ⟨"OSRSetSOC", [CArg.ptr sr.cval, CArg.double latitudeOfOrigin,
      CArg.double centralMeridian, CArg.double falseEasting, CArg.double falseNorthing]⟩
  Run.ofStep (.ok (ErrFromOGRErr (N call).int, Frame.init.call call))

/-- Go `func (sr SpatialReference) SetTM(centerLat, centerLong, scale, falseEasting,
falseNorthing float64) error` -/
def SpatialReference.SetTM (N : Native) (ErrFromOGRErr : Int → GoError)
    (sr : SpatialReference)
    (centerLat centerLong scale falseEasting falseNorthing : Float64) : Run GoError :=
  let call : NativeCall := ⟨"OSRSetTM", [CArg.ptr sr.cval, CArg.double centerLat,
      CArg.double centerLong, CArg.double scale, CArg.double falseEasting,
      CArg.double falseNorthing]⟩
  Run.ofStep (.ok (ErrFromOGRErr (N call).int, Frame.init.call call))

/-- Go `func (sr SpatialReference) SetTMVariant(variantName string, centerLat, centerLong,
scale, falseEasting, falseNorthing float64) error` -/
def SpatialReference.SetTMVariant (N : Native) (ErrFromOGRErr : Int → GoError)
    (sr : SpatialReference)
    (variantName : String)
    (centerLat centerLong scale falseEasting falseNorthing : Float64) : Run GoError :=
  let cName := (Frame.init.CString variantName).1
  let fr := (Frame.init.CString variantName).2.defer (Event.free cName.addr)
  let call : NativeCall := ⟨"OSRSetTMVariant", [CArg.ptr sr.cval, CArg.str (some cName),
      CArg.double centerLat, CArg.double centerLong, CArg.double scale,
      CArg.double falseEasting, CArg.double falseNorthing]⟩
  Run.ofStep (.ok (ErrFromOGRErr (N call).int, fr.call call))

/-- Go `func (sr SpatialReference) SetTMG(centerLat, centerLong, falseEasting,
falseNorthing float64) error` -/
def SpatialReference.SetTMG (N : Native) (ErrFromOGRErr : Int → GoError)
    (sr : SpatialReference)
    (centerLat centerLong falseEasting falseNorthing : Float64) : Run GoError :=
  let call : NativeCall := ⟨"OSRSetTMG", [CArg.ptr sr.cval, CArg.double centerLat,
      CArg.double centerLong, CArg.double falseEasting, CArg.double falseNorthing]⟩
  Run.ofStep (.ok (ErrFromOGRErr (N call).int, Frame.init.call call))

/-- Go `func (sr SpatialReference) SetTMSO(centerLat, centerLong, scale, falseEasting,
falseNorthing float64) error` -/
def SpatialReference.SetTMSO (N : Native) (ErrFromOGRErr : Int → GoError)
    (sr : SpatialReference)
    (centerLat centerLong scale falseEasting falseNorthing : Float64) : Run GoError :=
  let call : NativeCall := ⟨"OSRSetTMSO", [CArg.ptr sr.cval, CArg.double centerLat,
      CArg.double centerLong, CArg.double scale, CArg.double falseEasting,
      CArg.double falseNorthing]⟩
  Run.ofStep (.ok (ErrFromOGRErr (N call).int, Frame.init.call call))

/-- Go `func (sr SpatialReference) SetVDG(centerLong, falseEasting, falseNorthing float64)
error` -/
def SpatialReference.SetVDG (N : Native) (ErrFromOGRErr : Int → GoError)
    (sr : SpatialReference) (centerLong falseEasting falseNorthing : Float64) : Run GoError :=
  let call : NativeCall := ⟨"OSRSetVDG", [CArg.ptr sr.cval, CArg.double centerLong,
      CArg.double falseEasting, CArg.double falseNorthing]⟩
  Run.ofStep (.ok (ErrFromOGRErr (N call).int, Frame.init.call call))

/-! ## osr.go: exports and coordinate transformation -/

/-- What a native call stores through its out-parameters other than the status:
buffer pointers stored through `**C.char` arguments and integers stored through
`*C.long` arguments, each in argument order, and the float64 values found, after the
call, at the address passed for a double array. -/
structure Stored where
  strs : List CharPtr
  longs : List Int
  doubles : List Float64
deriving DecidableEq, Repr

/-- The out-parameter side of the native library. -/
abbrev NativeStores := NativeCall → Stored

/-- Go `C.GoString(p)`: a Go copy of the C string, the empty string for nil. -/
def GoString : CharPtr → String
  | none => ""
  | some b => b.val

/-- The address held by a `*C.char`, `0` for nil. -/
def CharPtr.addr : CharPtr → Nat
  | none => 0
  | some b => b.addr

/-- A float64 slice whose header was set to length `n`: the `n` values found in the
memory `mem` at its data pointer. -/
def reslice (mem : List Float64) (n : Nat) : List Float64 :=
  (List.range n).map (fun i => mem.getD i ⟨0⟩)

/-- Go `func (sr SpatialReference) ToWKT() (string, error)` -/
def SpatialReference.ToWKT (N : Native) (S : NativeStores) (ErrFromOGRErr : Int → GoError)
    (sr : SpatialReference) : Run (String × GoError) :=
  let call : NativeCall := ⟨"OSRExportToWkt", [CArg.ptr sr.cval, CArg.outStr]⟩
  let err := ErrFromOGRErr (N call).int
  let p : CharPtr := (S call).strs.getD 0 none
  let wkt := GoString p
  Run.ofStep (.ok ((wkt, err), Frame.init.call call))

/-- Go `func (sr SpatialReference) ToPrettyWKT(simplify bool) (string, error)` -/
def SpatialReference.ToPrettyWKT (N : Native) (S : NativeStores)
    (ErrFromOGRErr : Int → GoError) (BoolToCInt : Bool → Int) (sr : SpatialReference)
    (simplify : Bool) : Run (String × GoError) :=
  let call : NativeCall := ⟨"OSRExportToPrettyWkt",
    [CArg.ptr sr.cval, CArg.outStr, CArg.int (BoolToCInt simplify)]⟩
  let err := ErrFromOGRErr (N call).int
  let p : CharPtr := (S call).strs.getD 0 none
  let wkt := GoString p
  Run.ofStep (.ok ((wkt, err), Frame.init.call call))

/-- Go `func (sr SpatialReference) ToProj4() (string, error)` -/
def SpatialReference.ToProj4 (N : Native) (S : NativeStores) (ErrFromOGRErr : Int → GoError)
    (sr : SpatialReference) : Run (String × GoError) :=
  let call : NativeCall := ⟨"OSRExportToProj4", [CArg.ptr sr.cval, CArg.outStr]⟩
  let err := ErrFromOGRErr (N call).int
  let p : CharPtr := (S call).strs.getD 0 none
  let proj4 := GoString p
  Run.ofStep (.ok ((proj4, err), Frame.init.call call))

/-- Go `func (sr SpatialReference) ToPCI() (proj, units string, params []float64,
errVal error)`.  The named result `params` is nil when `&params[0]` is taken. -/
def SpatialReference.ToPCI (N : Native) (S : NativeStores) (ErrFromOGRErr : Int → GoError)
    (sr : SpatialReference) : Run (String × String × List Float64 × GoError) :=
  let params : List Float64 := []
  Run.ofStep (
    Step.bind (addrOfFirst params Frame.init) fun params0 fr =>
    let call : NativeCall := ⟨"OSRExportToPCI",
      [CArg.ptr sr.cval, CArg.outStr, CArg.outStr, CArg.doubles params0]⟩
    let err := ErrFromOGRErr (N call).int
    let fr := fr.call call
    let p : CharPtr := (S call).strs.getD 0 none
    let u : CharPtr := (S call).strs.getD 1 none
    let params := reslice (S call).doubles 17
    let fr := (fr.defer (Event.free p.addr)).defer (Event.free u.addr)
    .ok ((GoString p, GoString u, params, err), fr))

/-- Go `func (sr SpatialReference) ToUSGS() (proj, zone int, params []float64, datum int,
errVal error)`.  The named result `params` is nil when `&params[0]` is taken. -/
def SpatialReference.ToUSGS (N : Native) (S : NativeStores) (ErrFromOGRErr : Int → GoError)
    (sr : SpatialReference) : Run (Int × Int × List Float64 × Int × GoError) :=
  let params : List Float64 := []
  Run.ofStep (
    Step.bind (addrOfFirst params Frame.init) fun params0 fr =>
    let call : NativeCall := ⟨"OSRExportToUSGS",
      [CArg.ptr sr.cval, CArg.outInt, CArg.outInt, CArg.doubles params0, CArg.outInt]⟩
    let err := ErrFromOGRErr (N call).int
    let fr := fr.call call
    let proj : Int := (S call).longs.getD 0 0
    let zone : Int := (S call).longs.getD 1 0
    let datum : Int := (S call).longs.getD 2 0
    let params := reslice (S call).doubles 15
    .ok ((proj, zone, params, datum, err), fr))

/-- Go `func (sr SpatialReference) ToXML() (xml string, errVal error)` -/
def SpatialReference.ToXML (N : Native) (S : NativeStores) (ErrFromOGRErr : Int → GoError)
    (sr : SpatialReference) : Run (String × GoError) :=
  let call : NativeCall := ⟨"OSRExportToXML", [CArg.ptr sr.cval, CArg.outStr, CArg.ptr 0]⟩
  let err := ErrFromOGRErr (N call).int
  let x : CharPtr := (S call).strs.getD 0 none
  let fr := (Frame.init.call call).defer (Event.free x.addr)
  Run.ofStep (.ok ((GoString x, err), fr))

/-- Go `func (sr SpatialReference) ToMICoordSys() (output string, errVal error)` -/
def SpatialReference.ToMICoordSys (N : Native) (S : NativeStores)
    (ErrFromOGRErr : Int → GoError) (sr : SpatialReference) : Run (String × GoError) :=
  let call : NativeCall := ⟨"OSRExportToMICoordSys", [CArg.ptr sr.cval, CArg.outStr]⟩
  let err := ErrFromOGRErr (N call).int
  let x : CharPtr := (S call).strs.getD 0 none
  let fr := (Frame.init.call call).defer (Event.free x.addr)
  Run.ofStep (.ok ((GoString x, err), fr))

/-- Go `type CoordinateTransform struct { cval C.OGRCoordinateTransformationH }` -/
structure CoordinateTransform where
  cval : Nat
deriving DecidableEq, Repr

/-- Go `func (ct CoordinateTransform) Transform(numPoints int, xPoints []float64,
yPoints []float64, zPoints []float64) bool`.  The value returned is the Go result; the
native call works on the arrays it is handed. -/
def CoordinateTransform.Transform (N : Native) (ct : CoordinateTransform) (numPoints : Int)
    (xPoints yPoints zPoints : List Float64) : Run Bool :=
  Run.ofStep (
    Step.bind (addrOfFirst xPoints Frame.init) fun x0 fr =>
    Step.bind (addrOfFirst yPoints fr) fun y0 fr =>
    Step.bind (addrOfFirst zPoints fr) fun z0 fr =>
    let call : NativeCall := ⟨"OCTTransform", [CArg.ptr ct.cval, CArg.int (cInt numPoints),
      CArg.doubles x0, CArg.doubles y0, CArg.doubles z0]⟩
    .ok (decide ((N call).int ≠ 0), fr.call call))

/-! ## utilities.go: contour generation -/

/-- Go `type RasterBand struct { cval C.GDALRasterBandH }` (declared in a collaborator
file). -/
structure RasterBand where
  cval : Nat
deriving DecidableEq, Repr

/-- Go `type Layer struct { cval C.OGRLayerH }` (declared in a collaborator file). -/
structure Layer where
  cval : Nat
deriving DecidableEq, Repr

/-- A Go function value of type `ProgressFunc` (declared in a collaborator file): its
identity, `0` for nil, and whether the value is a pointer into Go-managed memory (a
closure or a method value) rather than nil or a top-level function such as
`DummyProgress`. -/
structure ProgressFunc where
  id : Nat
  goPointer : Bool
deriving DecidableEq, Repr

/-- A Go `interface{}` value passed as user data: its identity, `0` for nil, and whether
it holds a pointer into Go-managed memory. -/
structure UserData where
  id : Nat
  goPointer : Bool
deriving DecidableEq, Repr

/-- Go `func ContourGenerate(band RasterBand, layer Layer, options []string,
progress ProgressFunc, data interface{}) error`.  A nil `options` is `none`; `Err`, the
status mapping of `CPLErr` in a collaborator file, is a parameter.  The last argument,
`unsafe.Pointer(arg)`, is a Go pointer to the struct `{progress, data}`: once all
arguments are evaluated the cgo pointer check (on by default) inspects that struct and
panics, before the native call, when it holds a pointer into Go-managed memory. -/
def ContourGenerate (N : Native) (Err : Int → GoError) (band : RasterBand) (layer : Layer)
    (options : Option (List String)) (progress : ProgressFunc) (data : UserData) :
    Run GoError :=
  Run.ofStep (
    Step.bind (match options with
      | none => .ok (CArg.ptr 0, Frame.init)
      | some options =>
        Step.bind (marshalOptions options Frame.init) fun o fr =>
        Step.bind (addrOfFirst o fr) fun o0 fr => .ok (CArg.strv o0, fr)) fun opts fr =>
    let proxyCall : NativeCall := ⟨"goGDALProgressFuncProxyB", []⟩
    let fr := fr.call proxyCall
    if (progress.goPointer || data.goPointer) = true then .error (Fault.cgoPointer, fr)
    else
      let call : NativeCall := ⟨"GDALContourGenerateEx", [CArg.ptr band.cval,
        CArg.ptr layer.cval, opts, CArg.ptr (N proxyCall).ptr,
        CArg.proxyArgs progress.id data.id]⟩
      .ok (Err (N call).int, fr.call call))

/-! ## utilities.go: the option slice in Go memory

The utilities above take the option list by value.  To follow what happens to the
caller's slice, the defaulting step is also modelled on slice headers over a heap of
backing arrays. -/

/-- A Go `[]string` value: backing array, offset into it, length and capacity. -/
structure GoSlice where
  arr : Nat
  off : Nat
  len : Nat
  cap : Nat
deriving DecidableEq, Repr

/-- The backing arrays of `[]string` values, by allocation index. -/
abbrev GoHeap := List (List String)

/-- The elements of a slice. -/
def GoHeap.read (h : GoHeap) (s : GoSlice) : List String :=
  ((h.getD s.arr []).drop s.off).take s.len

/-- A slice over a newly allocated backing array with the given elements, as made by
a composite literal. -/
def GoHeap.new (h : GoHeap) (a : List String) : GoSlice × GoHeap :=
  (⟨h.length, 0, a.length, a.length⟩, h ++ [a])

/-- Store `xs` in backing array `arr` from position `pos` on. -/
def GoHeap.write (h : GoHeap) (arr pos : Nat) (xs : List String) : GoHeap :=
  h.set arr ((h.getD arr []).take pos ++ xs ++ (h.getD arr []).drop (pos + xs.length))

/-- Go `append(s, xs...)`: in place when the capacity of `s` suffices, otherwise into
a newly allocated backing array. -/
def GoHeap.append (h : GoHeap) (s : GoSlice) (xs : List String) : GoSlice × GoHeap :=
  if s.len + xs.length ≤ s.cap then
    (⟨s.arr, s.off, s.len + xs.length, s.cap⟩, h.write s.arr (s.off + s.len) xs)
  else h.new (h.read s ++ xs)

/-- The defaulting step of a utility on slice values: when the in-memory default
applies (`mem`) and `!stringArrayContains(options, tested)`, then
`options = append([]string{flag, "MEM"}, options...)`.  Returns the slice the utility
goes on with and the heap. -/
def injectDefault (h : GoHeap) (mem : Bool) (tested flag : String) (options : GoSlice) :
    GoSlice × GoHeap :=
  if mem && !stringArrayContains (h.read options) tested then
    (h.new [flag, "MEM"]).2.append (h.new [flag, "MEM"]).1
      ((h.new [flag, "MEM"]).2.read options)
  else (options, h)

/-! ## Reading a run: buffers -/

/-- The address a `C.CString` event allocated. -/
def Event.allocAddr : Event → Option Nat
  | Event.alloc p => some p.addr
  | _ => none

/-- The address a `C.free` event released. -/
def Event.freeAddr : Event → Option Nat
  | Event.free a => some a
  | _ => none

/-- The addresses of the C strings a run allocated, in order. -/
def Run.allocated {α : Type} (r : Run α) : List Nat := r.trace.filterMap Event.allocAddr

/-- The addresses a run passed to `C.free`, in order. -/
def Run.freed {α : Type} (r : Run α) : List Nat := r.trace.filterMap Event.freeAddr

/-- The string array a call receives, when one of its arguments is one. -/
def NativeCall.argv (c : NativeCall) : Option (List CharPtr) :=
  c.args.findSome? (fun a => match a with
    | CArg.strv v => some v
    | _ => none)

/-- Closed form of `ContourGenerate` for a non-nil option slice. -/
def contourRun (N : Native) (Err : Int → GoError) (band : RasterBand) (layer : Layer)
    (opts : List String) (progress : ProgressFunc) (data : UserData) : Run GoError :=
  let proxyCall : NativeCall := ⟨"goGDALProgressFuncProxyB", []⟩
  let call : NativeCall := ⟨"GDALContourGenerateEx", [CArg.ptr band.cval,
    CArg.ptr layer.cval, CArg.strv (argvOf opts), CArg.ptr (N proxyCall).ptr,
    CArg.proxyArgs progress.id data.id]⟩
  ⟨optionAllocs opts ++ [Event.native proxyCall]
      ++ (if (progress.goPointer || data.goPointer) = true then [] else [Event.native call])
      ++ optionFrees opts,
    if (progress.goPointer || data.goPointer) = true then .error Fault.cgoPointer
    else .ok (Err (N call).int)⟩

/-- Closed form of `ContourGenerate` for a nil option slice. -/
def contourRunNil (N : Native) (Err : Int → GoError) (band : RasterBand) (layer : Layer)
    (progress : ProgressFunc) (data : UserData) : Run GoError :=
  let proxyCall : NativeCall := ⟨"goGDALProgressFuncProxyB", []⟩
  let call : NativeCall := ⟨"GDALContourGenerateEx", [CArg.ptr band.cval,
    CArg.ptr layer.cval, CArg.ptr 0, CArg.ptr (N proxyCall).ptr,
    CArg.proxyArgs progress.id data.id]⟩
  ⟨[Event.native proxyCall]
      ++ (if (progress.goPointer || data.goPointer) = true then [] else [Event.native call]),
    if (progress.goPointer || data.goPointer) = true then .error Fault.cgoPointer
    else .ok (Err (N call).int)⟩

/-- The run makes exactly one native call, `c`, and returns the mapping of the status
that call returned. -/
def Run.forwardsTo (r : Run GoError) (N : Native) (ErrFromOGRErr : Int → GoError)
    (c : NativeCall) : Prop :=
  r.calls = [c] ∧ r.result = .ok (ErrFromOGRErr (N c).int)

/-- Every C string the run allocated is passed to `C.free` exactly once, and nothing
else is: the allocated addresses are distinct and the freed addresses are a
rearrangement of them. -/
def Run.releasesItsStrings {α : Type} (r : Run α) : Prop :=
  r.allocated.Nodup ∧ r.freed.Perm r.allocated

/-- The run calls the options constructor `newFn` once and allocates one C string for
each option string handed to it and `extra` more. -/
def Run.allocatesFor {α : Type} (r : Run α) (newFn : String) (extra : Nat) : Prop :=
  ∃ c opts, r.callsTo newFn = [c] ∧ c.optionList = some opts ∧
    r.allocated.length = opts.length + extra

/-- The run calls the options constructor `newFn` once and the matching destructor
`freeFn` once, on the structure the constructor returned. -/
def Run.releasesOptions {α : Type} (r : Run α) (N : Native) (newFn freeFn : String) : Prop :=
  ∃ c, r.callsTo newFn = [c] ∧ r.callsTo freeFn = [⟨freeFn, [CArg.ptr (N c).ptr]⟩]

/-! ## Lemmas on the marshaling loops -/

theorem cstrsFrom_length (base : Nat) (l : List String) :
    (cstrsFrom base l).length = l.length := by
  induction l generalizing base with
  | nil => rfl
  | cons s rest ih => simp [cstrsFrom, ih]

theorem cStrings_cstrsFrom (base : Nat) (l : List String) :
    cStrings ((cstrsFrom base l).map some ++ [none]) = l := by
  induction l generalizing base with
  | nil => rfl
  | cons s rest ih => simp [cstrsFrom, cStrings, ih]

theorem optsLoop_spec (rest : List String) :
    ∀ (done : List String) (pre : List CharPtr) (fr : Frame) (fuel : Nat),
      pre.length = done.length → rest.length < fuel →
      optsLoop (done ++ rest) (done.length + rest.length) fuel done.length
          (pre ++ List.replicate (rest.length + 1) none) fr
        = .ok (pre ++ ((cstrsFrom fr.next rest).map some ++ [none]),
            frameAfterOptions rest fr) := by
  induction rest with
  | nil =>
    intro done pre fr fuel _ hfuel
    cases fuel with
    | zero => simp at hfuel
    | succ fuel =>
      simp [optsLoop, cstrsFrom, frameAfterOptions]
  | cons s rest ih =>
    intro done pre fr fuel hpre hfuel
    cases fuel with
    | zero => simp at hfuel
    | succ fuel =>
      have hlt : rest.length < fuel := by simpa using hfuel
      have h := ih (done ++ [s]) (pre ++ [some ⟨fr.next, s⟩])
        ((fr.CString s).2.defer (Event.free fr.next)) fuel (by simp [hpre]) hlt
      have hset : (pre ++ List.replicate (rest.length + 1 + 1) (none : CharPtr)).set done.length
          (some ⟨fr.next, s⟩)
          = pre ++ [some ⟨fr.next, s⟩] ++ List.replicate (rest.length + 1) none := by
        rw [← hpre, List.set_append_right _ _ (le_refl _)]
        simp [List.replicate_succ]
      simp only [List.append_assoc, List.singleton_append, List.length_append,
        List.length_singleton, List.length_cons, List.length_nil, Nat.zero_add] at h
      unfold optsLoop
      simp only [List.length_cons, List.length_append, List.length_replicate]
      rw [if_pos (by omega)]
      have hget : (done ++ s :: rest)[done.length]? = some s := by
        rw [List.getElem?_append_right (le_refl _)]
        simp
      rw [hget]
      simp only
      rw [if_pos (by omega)]
      simp only [Frame.CString] at h ⊢
      rw [hset]
      simp only [List.append_assoc, List.singleton_append]
      rw [show done.length + (rest.length + 1) = done.length + 1 + rest.length by omega, h]
      simp [frameAfterOptions, cstrsFrom, Frame.defer, Nat.add_assoc, Nat.add_comm 1]

theorem marshalOptions_eq (options : List String) (fr : Frame) :
    marshalOptions options fr
      = .ok ((cstrsFrom fr.next options).map some ++ [none], frameAfterOptions options fr) := by
  have h := optsLoop_spec options [] [] fr (options.length + 1) rfl (Nat.lt_succ_self _)
  simp only [List.nil_append, List.length_nil, Nat.zero_add] at h
  unfold marshalOptions
  rw [h]
  simp only [List.length_append, List.length_map, cstrsFrom_length, List.length_singleton]
  rw [if_pos (Nat.lt_succ_self _)]
  congr 2
  have : options.length = ((cstrsFrom fr.next options).map some).length := by
    simp [cstrsFrom_length]
  rw [this, List.set_append_right _ _ (le_refl _)]
  simp

theorem fillHandles_spec (rest : List Dataset) :
    ∀ (pre : List Nat),
      fillHandles rest pre.length (pre ++ List.replicate rest.length 0)
        = .ok (pre ++ rest.map Dataset.cval) := by
  induction rest with
  | nil => intro pre; simp [fillHandles]
  | cons d rest ih =>
    intro pre
    have h := ih (pre ++ [d.cval])
    simp only [List.length_append, List.length_singleton, List.append_assoc,
      List.singleton_append] at h
    unfold fillHandles
    simp only [List.length_append, List.length_replicate, List.length_cons, List.map_cons]
    rw [if_pos (by omega), List.set_append_right _ _ (le_refl _)]
    simpa [List.replicate_succ] using h

theorem marshalSources_eq (sourceDS : List Dataset) (fr : Frame) :
    marshalSources sourceDS fr = .ok (sourceDS.map Dataset.cval, fr) := by
  have h := fillHandles_spec sourceDS []
  simp only [List.length_nil, List.nil_append] at h
  simp [marshalSources, h]

theorem Warp_eq (N : Native) (dstDS : String) (destDS : Option Dataset)
    (sourceDS : List Dataset) (options : List String) :
    Warp N dstDS destDS sourceDS options
      = warpRun N (if dstDS = "" ∧ destDS = none then "MEM:::" else dstDS) destDS sourceDS
          (if (dstDS = "" ∧ destDS = none) ∧ stringArrayContains options "-of" = false
            then ["-of", "MEM"] ++ options else options) := by
  simp only [Warp, marshalOptions_eq, marshalSources_eq, Step.bind, addrOfFirst, Run.ofStep,
    Frame.exit, Frame.call, Frame.defer, Frame.CString, frameAfterOptions, Frame.init, warpRun,
    argvOf, optionAllocs, optionFrees]
  cases sourceDS with
  | nil => simp [cstrsFrom_length]
  | cons d rest => simp [cstrsFrom_length]

theorem Translate_eq (N : Native) (dstDS : String) (sourceDS : Dataset)
    (options : List String) :
    Translate N dstDS sourceDS options
      = translateRun N (if dstDS = "" then "MEM:::" else dstDS) sourceDS
          (if dstDS = "" ∧ stringArrayContains options "-of" = false
            then ["-of", "MEM"] ++ options else options) := by
  simp only [Translate, marshalOptions_eq, Step.bind, addrOfFirst, Run.ofStep, Frame.exit,
    Frame.call, Frame.defer, Frame.CString, frameAfterOptions, Frame.init, translateRun,
    argvOf, optionAllocs, optionFrees]
  simp [cstrsFrom_length]

theorem VectorTranslate_eq (N : Native) (dstDS : String) (sourceDS : List Dataset)
    (options : List String) :
    VectorTranslate N dstDS sourceDS options
      = vectorTranslateRun N (if dstDS = "" then "MEM:::" else dstDS) sourceDS
          (if dstDS = "" ∧ stringArrayContains options "-f" = false
            then ["-f", "MEM"] ++ options else options) := by
  simp only [VectorTranslate, marshalOptions_eq, marshalSources_eq, Step.bind, addrOfFirst,
    Run.ofStep, Frame.exit, Frame.call, Frame.defer, Frame.CString, frameAfterOptions,
    Frame.init, vectorTranslateRun, argvOf, optionAllocs, optionFrees]
  cases sourceDS with
  | nil => simp [cstrsFrom_length]
  | cons d rest => simp [cstrsFrom_length]

theorem Rasterize_eq (N : Native) (dstDS : String) (sourceDS : Dataset)
    (options : List String) :
    Rasterize N dstDS sourceDS options
      = rasterizeRun N (if dstDS = "" then "MEM:::" else dstDS) sourceDS
          (if dstDS = "" ∧ stringArrayContains options "-f" = false
            then ["-of", "MEM"] ++ options else options) := by
  simp only [Rasterize, marshalOptions_eq, Step.bind, addrOfFirst, Run.ofStep, Frame.exit,
    Frame.call, Frame.defer, Frame.CString, frameAfterOptions, Frame.init, rasterizeRun,
    argvOf, optionAllocs, optionFrees]
  simp [cstrsFrom_length]

theorem DEMProcessing_eq (N : Native) (dstDS : String) (sourceDS : Dataset)
    (processing colorFileName : String) (options : List String) :
    DEMProcessing N dstDS sourceDS processing colorFileName options
      = demProcessingRun N (if dstDS = "" then "MEM:::" else dstDS) sourceDS processing
          colorFileName
          (if dstDS = "" ∧ stringArrayContains options "-f" = false
            then ["-of", "MEM"] ++ options else options) := by
  simp only [DEMProcessing, marshalOptions_eq, Step.bind, addrOfFirst, Run.ofStep, Frame.exit,
    Frame.call, Frame.defer, Frame.CString, frameAfterOptions, Frame.init, demProcessingRun,
    argvOf, optionAllocs, optionFrees]
  simp [cstrsFrom_length, Nat.add_comm, Nat.add_left_comm]


theorem toCall_optionAllocs (opts : List String) :
    (optionAllocs opts).filterMap Event.toCall = [] := by
  simp [optionAllocs, List.filterMap_eq_nil_iff, Event.toCall]

theorem toCall_optionFrees (opts : List String) :
    (optionFrees opts).filterMap Event.toCall = [] := by
  simp [optionFrees, List.filterMap_eq_nil_iff, Event.toCall]

theorem cStrings_argvOf (opts : List String) : cStrings (argvOf opts) = opts :=
  cStrings_cstrsFrom 1 opts

/-! ## Format-flag defaulting of the batch utilities -/

/-- C1 (evaluation of the code): `Rasterize` and `DEMProcessing`, called with an empty
destination and the caller's format flag `["-of", "GTiff"]`, hand the options
constructor `["-of", "MEM", "-of", "GTiff"]`: the in-memory pair is injected in front of
the caller's flag, because the guard looks for `"-f"`. -/
theorem Rasterize_DEMProcessing_inject_before_caller_of (N : Native) (src : Dataset)
    (processing colorFileName : String) :
    ((Rasterize N "" src ["-of", "GTiff"]).callsTo "GDALRasterizeOptionsNew").map
        NativeCall.optionList = [some ["-of", "MEM", "-of", "GTiff"]] ∧
    ((DEMProcessing N "" src processing colorFileName ["-of", "GTiff"]).callsTo
        "GDALDEMProcessingOptionsNew").map NativeCall.optionList
      = [some ["-of", "MEM", "-of", "GTiff"]] := by
  rw [Rasterize_eq, DEMProcessing_eq]
  constructor
  · simp [rasterizeRun, Run.callsTo, Run.calls, stringArrayContains, toCall_optionAllocs,
      toCall_optionFrees, Event.toCall, NativeCall.optionList, cStrings_argvOf,
      List.filterMap_append]
  · simp [demProcessingRun, Run.callsTo, Run.calls, stringArrayContains, toCall_optionAllocs,
      toCall_optionFrees, Event.toCall, NativeCall.optionList, cStrings_argvOf,
      List.filterMap_append]

/-- C2: `Warp` (with `destDS == nil`) and `Translate` called with an empty destination
and options containing `"-of"`, and `VectorTranslate` called with an empty destination
and options containing `"-f"`, make exactly one call to their options constructor, and
the option list it receives is exactly the caller's list. -/
theorem caller_format_flag_kept (N : Native) (sourceDS : List Dataset) (src : Dataset)
    (options voptions : List String)
    (hof : stringArrayContains options "-of" = true)
    (hf : stringArrayContains voptions "-f" = true) :
    ((Warp N "" none sourceDS options).callsTo "GDALWarpAppOptionsNew").map
        NativeCall.optionList = [some options] ∧
    ((Translate N "" src options).callsTo "GDALTranslateOptionsNew").map
        NativeCall.optionList = [some options] ∧
    ((VectorTranslate N "" sourceDS voptions).callsTo "GDALVectorTranslateOptionsNew").map
        NativeCall.optionList = [some voptions] := by
  rw [Warp_eq, Translate_eq, VectorTranslate_eq]
  refine ⟨?_, ?_, ?_⟩
  · by_cases hs : sourceDS = [] <;>
    simp [warpRun, Run.callsTo, Run.calls, hof, hs, toCall_optionAllocs, toCall_optionFrees,
      Event.toCall, NativeCall.optionList, cStrings_argvOf, List.filterMap_append]
  · simp [translateRun, Run.callsTo, Run.calls, hof, toCall_optionAllocs, toCall_optionFrees,
      Event.toCall, NativeCall.optionList, cStrings_argvOf, List.filterMap_append]
  · by_cases hs : sourceDS = [] <;>
    simp [vectorTranslateRun, Run.callsTo, Run.calls, hf, hs, toCall_optionAllocs,
      toCall_optionFrees, Event.toCall, NativeCall.optionList, cStrings_argvOf,
      List.filterMap_append]

/-- Witness for C2 at `["-of", "GTiff"]` and `["-f", "GeoJSON"]`. -/
theorem caller_format_flag_kept_witness :
    (stringArrayContains ["-of", "GTiff"] "-of" = true ∧
     stringArrayContains ["-f", "GeoJSON"] "-f" = true) ∧
    (((Warp (fun _ => ⟨7, 0, ⟨0⟩, 0⟩) "" none [⟨5⟩] ["-of", "GTiff"]).callsTo
        "GDALWarpAppOptionsNew").map NativeCall.optionList = [some ["-of", "GTiff"]] ∧
    ((Translate (fun _ => ⟨7, 0, ⟨0⟩, 0⟩) "" ⟨5⟩ ["-of", "GTiff"]).callsTo
        "GDALTranslateOptionsNew").map NativeCall.optionList = [some ["-of", "GTiff"]] ∧
    ((VectorTranslate (fun _ => ⟨7, 0, ⟨0⟩, 0⟩) "" [⟨5⟩] ["-f", "GeoJSON"]).callsTo
        "GDALVectorTranslateOptionsNew").map NativeCall.optionList
      = [some ["-f", "GeoJSON"]]) :=
  ⟨⟨by decide, by decide⟩,
   caller_format_flag_kept (fun _ => ⟨7, 0, ⟨0⟩, 0⟩) [⟨5⟩] ⟨5⟩ ["-of", "GTiff"]
    ["-f", "GeoJSON"] (by decide) (by decide)⟩

/-- C3: each batch utility called with an empty destination (and, for `Warp`, a nil
`destDS`) and options containing neither `"-of"` nor `"-f"` hands its options
constructor the in-memory pair followed by the caller's options (`"-of"`, `"MEM"` for
Warp, Translate, Rasterize and DEMProcessing, `"-f"`, `"MEM"` for VectorTranslate), and
its native call gets the destination `"MEM:::"`.  (`Warp` and `VectorTranslate` make no
native call at all when there is no source dataset.) -/
theorem memory_default_injected (N : Native) (sourceDS : List Dataset) (src : Dataset)
    (processing colorFileName : String) (options : List String)
    (hof : stringArrayContains options "-of" = false)
    (hf : stringArrayContains options "-f" = false) :
    (((Warp N "" none sourceDS options).callsTo "GDALWarpAppOptionsNew").map
        NativeCall.optionList = [some (["-of", "MEM"] ++ options)] ∧
      ((Warp N "" none sourceDS options).callsTo "GDALWarp").map NativeCall.destination
        = if sourceDS = [] then [] else [some "MEM:::"]) ∧
    (((Translate N "" src options).callsTo "GDALTranslateOptionsNew").map
        NativeCall.optionList = [some (["-of", "MEM"] ++ options)] ∧
      ((Translate N "" src options).callsTo "GDALTranslate").map NativeCall.destination
        = [some "MEM:::"]) ∧
    (((VectorTranslate N "" sourceDS options).callsTo "GDALVectorTranslateOptionsNew").map
        NativeCall.optionList = [some (["-f", "MEM"] ++ options)] ∧
      ((VectorTranslate N "" sourceDS options).callsTo "GDALVectorTranslate").map
        NativeCall.destination = if sourceDS = [] then [] else [some "MEM:::"]) ∧
    (((Rasterize N "" src options).callsTo "GDALRasterizeOptionsNew").map
        NativeCall.optionList = [some (["-of", "MEM"] ++ options)] ∧
      ((Rasterize N "" src options).callsTo "GDALRasterize").map NativeCall.destination
        = [some "MEM:::"]) ∧
    (((DEMProcessing N "" src processing colorFileName options).callsTo
        "GDALDEMProcessingOptionsNew").map
        NativeCall.optionList = [some (["-of", "MEM"] ++ options)] ∧
      ((DEMProcessing N "" src processing colorFileName options).callsTo
        "GDALDEMProcessing").map NativeCall.destination = [some "MEM:::"]) := by
  rw [Warp_eq, Translate_eq, VectorTranslate_eq, Rasterize_eq, DEMProcessing_eq]
  refine ⟨?_, ?_, ?_, ?_, ?_⟩
  · by_cases hs : sourceDS = [] <;>
    simp [warpRun, Run.callsTo, Run.calls, hof, hs, toCall_optionAllocs, toCall_optionFrees,
      Event.toCall, NativeCall.optionList, NativeCall.destination, cStrings_argvOf,
      List.filterMap_append]
  · simp [translateRun, Run.callsTo, Run.calls, hof, toCall_optionAllocs, toCall_optionFrees,
      Event.toCall, NativeCall.optionList, NativeCall.destination, cStrings_argvOf,
      List.filterMap_append]
  · by_cases hs : sourceDS = [] <;>
    simp [vectorTranslateRun, Run.callsTo, Run.calls, hf, hs, toCall_optionAllocs,
      toCall_optionFrees, Event.toCall, NativeCall.optionList, NativeCall.destination,
      cStrings_argvOf, List.filterMap_append]
  · simp [rasterizeRun, Run.callsTo, Run.calls, hf, toCall_optionAllocs, toCall_optionFrees,
      Event.toCall, NativeCall.optionList, NativeCall.destination, cStrings_argvOf,
      List.filterMap_append]
  · simp [demProcessingRun, Run.callsTo, Run.calls, hf, toCall_optionAllocs,
      toCall_optionFrees, Event.toCall, NativeCall.optionList, NativeCall.destination,
      cStrings_argvOf, List.filterMap_append]

/-- Witness for C3 at `["-t_srs", "epsg:3857"]`. -/
theorem memory_default_injected_witness :
    (stringArrayContains ["-t_srs", "epsg:3857"] "-of" = false ∧
     stringArrayContains ["-t_srs", "epsg:3857"] "-f" = false) ∧
    ((Warp (fun _ => ⟨7, 0, ⟨0⟩, 0⟩) "" none [⟨5⟩] ["-t_srs", "epsg:3857"]).callsTo
        "GDALWarpAppOptionsNew").map NativeCall.optionList
      = [some (["-of", "MEM"] ++ ["-t_srs", "epsg:3857"])] ∧
    ((VectorTranslate (fun _ => ⟨7, 0, ⟨0⟩, 0⟩) "" [⟨5⟩] ["-t_srs", "epsg:3857"]).callsTo
        "GDALVectorTranslateOptionsNew").map NativeCall.optionList
      = [some (["-f", "MEM"] ++ ["-t_srs", "epsg:3857"])] ∧
    ((Rasterize (fun _ => ⟨7, 0, ⟨0⟩, 0⟩) "" ⟨5⟩ ["-t_srs", "epsg:3857"]).callsTo
        "GDALRasterize").map NativeCall.destination = [some "MEM:::"] :=
  ⟨⟨by decide, by decide⟩,
   (memory_default_injected (fun _ => ⟨7, 0, ⟨0⟩, 0⟩) [⟨5⟩] ⟨5⟩ "hillshade" ""
      ["-t_srs", "epsg:3857"] (by decide) (by decide)).1.1,
   (memory_default_injected (fun _ => ⟨7, 0, ⟨0⟩, 0⟩) [⟨5⟩] ⟨5⟩ "hillshade" ""
      ["-t_srs", "epsg:3857"] (by decide) (by decide)).2.2.1.1,
   (memory_default_injected (fun _ => ⟨7, 0, ⟨0⟩, 0⟩) [⟨5⟩] ⟨5⟩ "hillshade" ""
      ["-t_srs", "epsg:3857"] (by decide) (by decide)).2.2.2.1.2⟩

theorem cRead_of_not_hasNul (s : String) (h : hasNul s = false) : cRead s = s := by
  have hall : ∀ c ∈ s.data, decide (c ≠ Char.ofNat 0) = true := by
    intro c hc
    have hne : c ≠ Char.ofNat 0 := by
      intro heq
      have hmem : s.data.contains (Char.ofNat 0) = true := by
        simpa using (heq ▸ hc : Char.ofNat 0 ∈ s.data)
      rw [hasNul] at h
      rw [h] at hmem
      exact Bool.noConfusion hmem
    simpa using hne
  show (⟨s.data.takeWhile (fun c => decide (c ≠ Char.ofNat 0))⟩ : String) = s
  rw [List.takeWhile_eq_self_iff.mpr hall]

theorem cStringsRead_cstrsFrom (base : Nat) (l : List String)
    (h : ∀ s ∈ l, hasNul s = false) :
    cStringsRead ((cstrsFrom base l).map some ++ [none]) = l := by
  induction l generalizing base with
  | nil => rfl
  | cons s rest ih =>
    have hs : cRead s = s := cRead_of_not_hasNul s (h s (List.mem_cons_self _ _))
    have hrest := ih (base + 1) (fun t ht => h t (List.mem_cons_of_mem _ ht))
    show cRead s :: cStringsRead ((cstrsFrom (base + 1) rest).map some ++ [none])
      = s :: rest
    rw [hs, hrest]

theorem cStringsRead_argvOf (opts : List String) (h : ∀ s ∈ opts, hasNul s = false) :
    cStringsRead (argvOf opts) = opts :=
  cStringsRead_cstrsFrom 1 opts h

/-- C4 (counterexample): `Translate` called with the destination `"\x00"`, which is
not the empty string, and the options `["-of\x00X", "GTiff"]`: the native translate reads
the empty destination name and the options constructor reads `["-of", "GTiff"]`, because
C code reads each marshaled string only up to its first NUL. -/
theorem NUL_cuts_destination_and_option :
    ("\x00" : String) ≠ "" ∧
    ((Translate (fun _ => ⟨7, 0, ⟨0⟩, 0⟩) "\x00" ⟨5⟩ ["-of\x00X", "GTiff"]).callsTo
        "GDALTranslate").map NativeCall.destinationRead = [some ""] ∧
    ((Translate (fun _ => ⟨7, 0, ⟨0⟩, 0⟩) "\x00" ⟨5⟩ ["-of\x00X", "GTiff"]).callsTo
        "GDALTranslateOptionsNew").map NativeCall.optionsRead
      = [some ["-of", "GTiff"]] := by
  refine ⟨by decide, by decide, by decide⟩

/-- C4 (amended): for every batch utility, every non-empty destination string and
every options list, none of them holding a NUL character, the options constructor reads
exactly the caller's flags in the caller's order and the native call reads the
destination unchanged.  (`Warp` and `VectorTranslate` make no native call at all when
there is no source dataset.) -/
theorem explicit_destination_read_verbatim (N : Native) (dstDS : String)
    (destDS : Option Dataset) (sourceDS : List Dataset) (src : Dataset)
    (processing colorFileName : String) (options : List String) (hdst : dstDS ≠ "")
    (hdstNul : hasNul dstDS = false) (hoptsNul : ∀ s ∈ options, hasNul s = false) :
    (((Warp N dstDS destDS sourceDS options).callsTo "GDALWarpAppOptionsNew").map
        NativeCall.optionsRead = [some options] ∧
      ((Warp N dstDS destDS sourceDS options).callsTo "GDALWarp").map
        NativeCall.destinationRead = if sourceDS = [] then [] else [some dstDS]) ∧
    (((Translate N dstDS src options).callsTo "GDALTranslateOptionsNew").map
        NativeCall.optionsRead = [some options] ∧
      ((Translate N dstDS src options).callsTo "GDALTranslate").map
        NativeCall.destinationRead = [some dstDS]) ∧
    (((VectorTranslate N dstDS sourceDS options).callsTo
        "GDALVectorTranslateOptionsNew").map NativeCall.optionsRead = [some options] ∧
      ((VectorTranslate N dstDS sourceDS options).callsTo "GDALVectorTranslate").map
        NativeCall.destinationRead = if sourceDS = [] then [] else [some dstDS]) ∧
    (((Rasterize N dstDS src options).callsTo "GDALRasterizeOptionsNew").map
        NativeCall.optionsRead = [some options] ∧
      ((Rasterize N dstDS src options).callsTo "GDALRasterize").map
        NativeCall.destinationRead = [some dstDS]) ∧
    (((DEMProcessing N dstDS src processing colorFileName options).callsTo
        "GDALDEMProcessingOptionsNew").map NativeCall.optionsRead = [some options] ∧
      ((DEMProcessing N dstDS src processing colorFileName options).callsTo
        "GDALDEMProcessing").map NativeCall.destinationRead = [some dstDS]) := by
  have hd : cRead dstDS = dstDS := cRead_of_not_hasNul dstDS hdstNul
  have ho : cStringsRead (argvOf options) = options := cStringsRead_argvOf options hoptsNul
  rw [Warp_eq, Translate_eq, VectorTranslate_eq, Rasterize_eq, DEMProcessing_eq]
  refine ⟨?_, ?_, ?_, ?_, ?_⟩
  · by_cases hs : sourceDS = [] <;>
    simp [warpRun, Run.callsTo, Run.calls, hdst, hs, toCall_optionAllocs, toCall_optionFrees,
      Event.toCall, NativeCall.optionsRead, NativeCall.destinationRead, hd, ho,
      List.filterMap_append]
  · simp [translateRun, Run.callsTo, Run.calls, hdst, toCall_optionAllocs,
      toCall_optionFrees, Event.toCall, NativeCall.optionsRead,
      NativeCall.destinationRead, hd, ho, List.filterMap_append]
  · by_cases hs : sourceDS = [] <;>
    simp [vectorTranslateRun, Run.callsTo, Run.calls, hdst, hs, toCall_optionAllocs,
      toCall_optionFrees, Event.toCall, NativeCall.optionsRead,
      NativeCall.destinationRead, hd, ho, List.filterMap_append]
  · simp [rasterizeRun, Run.callsTo, Run.calls, hdst, toCall_optionAllocs,
      toCall_optionFrees, Event.toCall, NativeCall.optionsRead,
      NativeCall.destinationRead, hd, ho, List.filterMap_append]
  · simp [demProcessingRun, Run.callsTo, Run.calls, hdst, toCall_optionAllocs,
      toCall_optionFrees, Event.toCall, NativeCall.optionsRead,
      NativeCall.destinationRead, hd, ho, List.filterMap_append]

/-- Witness for the amended C4 at the inputs of `TestVectorTranslate` and
`TestRasterize`. -/
theorem explicit_destination_read_verbatim_witness :
    (("./tmp/test4326.geojson" ≠ "" ∧ hasNul "./tmp/test4326.geojson" = false ∧
        ∀ s ∈ ["-t_srs", "epsg:4326", "-f", "GeoJSON"], hasNul s = false) ∧
      ("./tmp/rasterized.tif" ≠ "" ∧ hasNul "./tmp/rasterized.tif" = false ∧
        ∀ s ∈ ["-a", "code", "-tr", "10", "10"], hasNul s = false)) ∧
    (((VectorTranslate (fun _ => ⟨7, 0, ⟨0⟩, 0⟩) "./tmp/test4326.geojson" [⟨5⟩]
        ["-t_srs", "epsg:4326", "-f", "GeoJSON"]).callsTo
        "GDALVectorTranslateOptionsNew").map NativeCall.optionsRead
        = [some ["-t_srs", "epsg:4326", "-f", "GeoJSON"]] ∧
      ((VectorTranslate (fun _ => ⟨7, 0, ⟨0⟩, 0⟩) "./tmp/test4326.geojson" [⟨5⟩]
        ["-t_srs", "epsg:4326", "-f", "GeoJSON"]).callsTo "GDALVectorTranslate").map
        NativeCall.destinationRead
        = if ([⟨5⟩] : List Dataset) = [] then [] else [some "./tmp/test4326.geojson"]) ∧
    (((Rasterize (fun _ => ⟨7, 0, ⟨0⟩, 0⟩) "./tmp/rasterized.tif" ⟨5⟩
        ["-a", "code", "-tr", "10", "10"]).callsTo "GDALRasterizeOptionsNew").map
        NativeCall.optionsRead = [some ["-a", "code", "-tr", "10", "10"]] ∧
      ((Rasterize (fun _ => ⟨7, 0, ⟨0⟩, 0⟩) "./tmp/rasterized.tif" ⟨5⟩
        ["-a", "code", "-tr", "10", "10"]).callsTo "GDALRasterize").map
        NativeCall.destinationRead = [some "./tmp/rasterized.tif"]) :=
  ⟨⟨⟨by decide, by decide, by decide⟩, ⟨by decide, by decide, by decide⟩⟩,
   (explicit_destination_read_verbatim (fun _ => ⟨7, 0, ⟨0⟩, 0⟩) "./tmp/test4326.geojson"
      none [⟨5⟩] ⟨5⟩ "" "" ["-t_srs", "epsg:4326", "-f", "GeoJSON"] (by decide) (by decide)
      (by decide)).2.2.1,
   (explicit_destination_read_verbatim (fun _ => ⟨7, 0, ⟨0⟩, 0⟩) "./tmp/rasterized.tif"
      none [⟨5⟩] ⟨5⟩ "" "" ["-a", "code", "-tr", "10", "10"] (by decide) (by decide)
      (by decide)).2.2.2.1⟩

/-! ## Return values of the batch utilities -/

theorem Warp_outcome (N : Native) (dstDS : String) (destDS : Option Dataset)
    (sourceDS : List Dataset) (options : List String) (hsrc : sourceDS ≠ []) :
    ∃ c, (Warp N dstDS destDS sourceDS options).callsTo "GDALWarp" = [c] ∧
      (Warp N dstDS destDS sourceDS options).result
        = .ok (datasetOrError "warp failed with code " (N c)) := by
  rw [Warp_eq]
  refine ⟨_, ?_, by simp only [warpRun, if_neg hsrc]; rfl⟩
  simp [warpRun, Run.callsTo, Run.calls, hsrc, toCall_optionAllocs, toCall_optionFrees,
    Event.toCall, List.filterMap_append]

theorem Translate_outcome (N : Native) (dstDS : String) (src : Dataset)
    (options : List String) :
    ∃ c, (Translate N dstDS src options).callsTo "GDALTranslate" = [c] ∧
      (Translate N dstDS src options).result
        = .ok (datasetOrError "translate failed with code " (N c)) := by
  rw [Translate_eq]
  refine ⟨_, ?_, rfl⟩
  simp [translateRun, Run.callsTo, Run.calls, toCall_optionAllocs, toCall_optionFrees,
    Event.toCall, List.filterMap_append]

theorem VectorTranslate_outcome (N : Native) (dstDS : String) (sourceDS : List Dataset)
    (options : List String) (hsrc : sourceDS ≠ []) :
    ∃ c, (VectorTranslate N dstDS sourceDS options).callsTo "GDALVectorTranslate" = [c] ∧
      (VectorTranslate N dstDS sourceDS options).result
        = .ok (datasetOrError "vector translate failed with code " (N c)) := by
  rw [VectorTranslate_eq]
  refine ⟨_, ?_, by simp only [vectorTranslateRun, if_neg hsrc]; rfl⟩
  simp [vectorTranslateRun, Run.callsTo, Run.calls, hsrc, toCall_optionAllocs,
    toCall_optionFrees, Event.toCall, List.filterMap_append]

theorem Rasterize_outcome (N : Native) (dstDS : String) (src : Dataset)
    (options : List String) :
    ∃ c, (Rasterize N dstDS src options).callsTo "GDALRasterize" = [c] ∧
      (Rasterize N dstDS src options).result
        = .ok (datasetOrError "rasterize failed with code " (N c)) := by
  rw [Rasterize_eq]
  refine ⟨_, ?_, rfl⟩
  simp [rasterizeRun, Run.callsTo, Run.calls, toCall_optionAllocs, toCall_optionFrees,
    Event.toCall, List.filterMap_append]

theorem DEMProcessing_outcome (N : Native) (dstDS : String) (src : Dataset)
    (processing colorFileName : String) (options : List String) :
    ∃ c, (DEMProcessing N dstDS src processing colorFileName options).callsTo
        "GDALDEMProcessing" = [c] ∧
      (DEMProcessing N dstDS src processing colorFileName options).result
        = .ok (datasetOrError "demprocessing failed with code " (N c)) := by
  rw [DEMProcessing_eq]
  refine ⟨_, ?_, rfl⟩
  simp [demProcessingRun, Run.callsTo, Run.calls, toCall_optionAllocs, toCall_optionFrees,
    Event.toCall, List.filterMap_append]

theorem datasetOrError_failure (msg : String) (r : Reply) (h : r.outInt ≠ 0) :
    datasetOrError msg r = (⟨0⟩, some (msg ++ toString r.outInt)) := by
  simp [datasetOrError, h]

theorem datasetOrError_success (msg : String) (r : Reply) (h : r.outInt = 0) :
    datasetOrError msg r = (⟨r.ptr⟩, none) := by
  simp [datasetOrError, h]

theorem datasetOrError_valid (msg : String) (r : Reply) (h : r.ptr ≠ 0 ∨ r.outInt ≠ 0) :
    (datasetOrError msg r).2 ≠ none ∨ (datasetOrError msg r).1.cval ≠ 0 := by
  by_cases hc : r.outInt = 0
  · rcases h with h | h
    · right
      simpa [datasetOrError, hc] using h
    · exact absurd hc h
  · left
    simp [datasetOrError, hc]

/-- C5: every batch utility that reaches its native call (always, except `Warp` and
`VectorTranslate` without a source dataset) makes that call once, and for the code `c`
the call wrote to the out-parameter and the handle `h` it returned: if `c != 0` the
utility returns the zero Dataset and an error whose message names the operation and
shows `c` in decimal; if `c == 0` it returns a Dataset wrapping `h` and a nil error. -/
theorem native_code_reported (N : Native) (dstDS : String) (destDS : Option Dataset)
    (sourceDS : List Dataset) (src : Dataset) (processing colorFileName : String)
    (options : List String) (hsrc : sourceDS ≠ []) :
    (∃ c, (Warp N dstDS destDS sourceDS options).callsTo "GDALWarp" = [c] ∧
      ((N c).outInt ≠ 0 → (Warp N dstDS destDS sourceDS options).result
        = .ok (⟨0⟩, some ("warp failed with code " ++ toString (N c).outInt))) ∧
      ((N c).outInt = 0 → (Warp N dstDS destDS sourceDS options).result
        = .ok (⟨(N c).ptr⟩, none))) ∧
    (∃ c, (Translate N dstDS src options).callsTo "GDALTranslate" = [c] ∧
      ((N c).outInt ≠ 0 → (Translate N dstDS src options).result
        = .ok (⟨0⟩, some ("translate failed with code " ++ toString (N c).outInt))) ∧
      ((N c).outInt = 0 → (Translate N dstDS src options).result
        = .ok (⟨(N c).ptr⟩, none))) ∧
    (∃ c, (VectorTranslate N dstDS sourceDS options).callsTo "GDALVectorTranslate" = [c] ∧
      ((N c).outInt ≠ 0 → (VectorTranslate N dstDS sourceDS options).result
        = .ok (⟨0⟩, some ("vector translate failed with code " ++ toString (N c).outInt))) ∧
      ((N c).outInt = 0 → (VectorTranslate N dstDS sourceDS options).result
        = .ok (⟨(N c).ptr⟩, none))) ∧
    (∃ c, (Rasterize N dstDS src options).callsTo "GDALRasterize" = [c] ∧
      ((N c).outInt ≠ 0 → (Rasterize N dstDS src options).result
        = .ok (⟨0⟩, some ("rasterize failed with code " ++ toString (N c).outInt))) ∧
      ((N c).outInt = 0 → (Rasterize N dstDS src options).result
        = .ok (⟨(N c).ptr⟩, none))) ∧
    (∃ c, (DEMProcessing N dstDS src processing colorFileName options).callsTo
        "GDALDEMProcessing" = [c] ∧
      ((N c).outInt ≠ 0 → (DEMProcessing N dstDS src processing colorFileName options).result
        = .ok (⟨0⟩, some ("demprocessing failed with code " ++ toString (N c).outInt))) ∧
      ((N c).outInt = 0 → (DEMProcessing N dstDS src processing colorFileName options).result
        = .ok (⟨(N c).ptr⟩, none))) := by
  refine ⟨?_, ?_, ?_, ?_, ?_⟩
  · obtain ⟨c, hc, hr⟩ := Warp_outcome N dstDS destDS sourceDS options hsrc
    exact ⟨c, hc, fun h => by rw [hr, datasetOrError_failure _ _ h],
      fun h => by rw [hr, datasetOrError_success _ _ h]⟩
  · obtain ⟨c, hc, hr⟩ := Translate_outcome N dstDS src options
    exact ⟨c, hc, fun h => by rw [hr, datasetOrError_failure _ _ h],
      fun h => by rw [hr, datasetOrError_success _ _ h]⟩
  · obtain ⟨c, hc, hr⟩ := VectorTranslate_outcome N dstDS sourceDS options hsrc
    exact ⟨c, hc, fun h => by rw [hr, datasetOrError_failure _ _ h],
      fun h => by rw [hr, datasetOrError_success _ _ h]⟩
  · obtain ⟨c, hc, hr⟩ := Rasterize_outcome N dstDS src options
    exact ⟨c, hc, fun h => by rw [hr, datasetOrError_failure _ _ h],
      fun h => by rw [hr, datasetOrError_success _ _ h]⟩
  · obtain ⟨c, hc, hr⟩ := DEMProcessing_outcome N dstDS src processing colorFileName options
    exact ⟨c, hc, fun h => by rw [hr, datasetOrError_failure _ _ h],
      fun h => by rw [hr, datasetOrError_success _ _ h]⟩

/-- Witness for C5: a native warp that stores code 3 is reported as
`warp failed with code 3`. -/
theorem native_code_reported_witness :
    ([⟨5⟩] : List Dataset) ≠ [] ∧
    (Warp (fun _ => ⟨0, 0, ⟨0⟩, 3⟩) "out.tif" none [⟨5⟩] ["-of", "GTiff"]).result
      = .ok (⟨0⟩, some "warp failed with code 3") := by
  refine ⟨by decide, ?_⟩
  obtain ⟨c, _, hfail, _⟩ := (native_code_reported (fun _ => ⟨0, 0, ⟨0⟩, 3⟩) "out.tif" none
    [⟨5⟩] ⟨5⟩ "" "" ["-of", "GTiff"] (by decide)).1
  exact hfail (by decide)

theorem fn_of_callsTo {α : Type} (r : Run α) (fn : String) (c : NativeCall)
    (h : r.callsTo fn = [c]) : c.fn = fn := by
  have hmem : c ∈ r.callsTo fn := by rw [h]; exact List.mem_singleton_self c
  simpa using (List.mem_filter.mp hmem).2

/-- C6 (counterexample): when the native translate returns a null handle and stores
code 0, `Translate` returns a nil error together with a Dataset holding the null
handle: neither an error nor a valid result. -/
theorem Translate_null_handle_reported_as_success :
    (Translate (fun _ => ⟨0, 0, ⟨0⟩, 0⟩) "out.tif" ⟨5⟩ []).result = .ok (⟨0⟩, none) := by
  rfl

/-- C6 (amended): provided the native batch entry points never return a null handle
together with code 0, every batch utility that reaches its native call returns a
non-nil error or a Dataset holding a non-null handle. -/
theorem valid_result_or_error (N : Native) (dstDS : String) (destDS : Option Dataset)
    (sourceDS : List Dataset) (src : Dataset) (processing colorFileName : String)
    (options : List String)
    (hN : ∀ c : NativeCall, c.fn ∈ ["GDALWarp", "GDALTranslate", "GDALVectorTranslate",
      "GDALRasterize", "GDALDEMProcessing"] → (N c).ptr ≠ 0 ∨ (N c).outInt ≠ 0)
    (hsrc : sourceDS ≠ []) :
    (∃ p, (Warp N dstDS destDS sourceDS options).result = .ok p ∧
      (p.2 ≠ none ∨ p.1.cval ≠ 0)) ∧
    (∃ p, (Translate N dstDS src options).result = .ok p ∧
      (p.2 ≠ none ∨ p.1.cval ≠ 0)) ∧
    (∃ p, (VectorTranslate N dstDS sourceDS options).result = .ok p ∧
      (p.2 ≠ none ∨ p.1.cval ≠ 0)) ∧
    (∃ p, (Rasterize N dstDS src options).result = .ok p ∧
      (p.2 ≠ none ∨ p.1.cval ≠ 0)) ∧
    (∃ p, (DEMProcessing N dstDS src processing colorFileName options).result = .ok p ∧
      (p.2 ≠ none ∨ p.1.cval ≠ 0)) := by
  refine ⟨?_, ?_, ?_, ?_, ?_⟩
  · obtain ⟨c, hc, hr⟩ := Warp_outcome N dstDS destDS sourceDS options hsrc
    exact ⟨_, hr, datasetOrError_valid _ _
      (hN c (by rw [fn_of_callsTo _ _ _ hc]; simp))⟩
  · obtain ⟨c, hc, hr⟩ := Translate_outcome N dstDS src options
    exact ⟨_, hr, datasetOrError_valid _ _
      (hN c (by rw [fn_of_callsTo _ _ _ hc]; simp))⟩
  · obtain ⟨c, hc, hr⟩ := VectorTranslate_outcome N dstDS sourceDS options hsrc
    exact ⟨_, hr, datasetOrError_valid _ _
      (hN c (by rw [fn_of_callsTo _ _ _ hc]; simp))⟩
  · obtain ⟨c, hc, hr⟩ := Rasterize_outcome N dstDS src options
    exact ⟨_, hr, datasetOrError_valid _ _
      (hN c (by rw [fn_of_callsTo _ _ _ hc]; simp))⟩
  · obtain ⟨c, hc, hr⟩ := DEMProcessing_outcome N dstDS src processing colorFileName options
    exact ⟨_, hr, datasetOrError_valid _ _
      (hN c (by rw [fn_of_callsTo _ _ _ hc]; simp))⟩

/-- Witness for the amended C6: a native library that always returns handle 7. -/
theorem valid_result_or_error_witness :
    ((∀ c : NativeCall, c.fn ∈ ["GDALWarp", "GDALTranslate", "GDALVectorTranslate",
        "GDALRasterize", "GDALDEMProcessing"] →
        ((fun _ => ⟨7, 0, ⟨0⟩, 0⟩ : Native) c).ptr ≠ 0 ∨
        ((fun _ => ⟨7, 0, ⟨0⟩, 0⟩ : Native) c).outInt ≠ 0) ∧
      ([⟨5⟩] : List Dataset) ≠ []) ∧
    ∃ p, (Rasterize (fun _ => ⟨7, 0, ⟨0⟩, 0⟩) "./tmp/rasterized.tif" ⟨5⟩
        ["-a", "code", "-tr", "10", "10"]).result = .ok p ∧ (p.2 ≠ none ∨ p.1.cval ≠ 0) :=
  ⟨⟨fun _ _ => Or.inl (show (7 : Nat) ≠ 0 by decide), by decide⟩,
   (valid_result_or_error (fun _ => ⟨7, 0, ⟨0⟩, 0⟩) "./tmp/rasterized.tif" none [⟨5⟩] ⟨5⟩
      "" "" ["-a", "code", "-tr", "10", "10"] (fun _ _ => Or.inl (show (7 : Nat) ≠ 0 by decide))
      (by decide)).2.2.2.1⟩

/-- C7 (evaluation of the code): with an empty source list `Warp` and
`VectorTranslate` panic at `&srcDS[0]` (index out of range [0] with length 0), whatever
the other arguments are, and the native warp / vector-translate entry point is never
called. -/
theorem Warp_VectorTranslate_panic_without_sources (N : Native) (dstDS : String)
    (destDS : Option Dataset) (options : List String) :
    ((Warp N dstDS destDS [] options).result = .error (Fault.indexOutOfRange 0 0) ∧
      (Warp N dstDS destDS [] options).callsTo "GDALWarp" = []) ∧
    ((VectorTranslate N dstDS [] options).result = .error (Fault.indexOutOfRange 0 0) ∧
      (VectorTranslate N dstDS [] options).callsTo "GDALVectorTranslate" = []) := by
  rw [Warp_eq, VectorTranslate_eq]
  constructor
  · simp [warpRun, Run.callsTo, Run.calls, toCall_optionAllocs, toCall_optionFrees,
      Event.toCall, List.filterMap_append]
  · simp [vectorTranslateRun, Run.callsTo, Run.calls, toCall_optionAllocs,
      toCall_optionFrees, Event.toCall, List.filterMap_append]

/-! ## Entry points used by the spatial-reference wrappers -/

/-- C8 (evaluation of the code): `NormalizedProjectionParameter` makes one native call,
to `OSRGetProjParm`, the entry point `ProjectionParameter` uses, and returns that call's
value and mapped status; its run is the run of `ProjectionParameter` on the same
arguments, and the normalized getter `OSRGetNormProjParm` is never called. -/
theorem NormalizedProjectionParameter_reads_raw_parameter (N : Native)
    (ErrFromOGRErr : Int → GoError) (sr : SpatialReference) (name : String)
    (defaultValue : Float64) :
    sr.NormalizedProjectionParameter N ErrFromOGRErr name defaultValue
      = sr.ProjectionParameter N ErrFromOGRErr name defaultValue ∧
    (sr.NormalizedProjectionParameter N ErrFromOGRErr name defaultValue).calls
      = [⟨"OSRGetProjParm", [CArg.ptr sr.cval, CArg.str (some ⟨1, name⟩),
          CArg.double defaultValue, CArg.outInt]⟩] ∧
    (sr.NormalizedProjectionParameter N ErrFromOGRErr name defaultValue).callsTo
      "OSRGetNormProjParm" = [] ∧
    (sr.NormalizedProjectionParameter N ErrFromOGRErr name defaultValue).result
      = .ok ((N ⟨"OSRGetProjParm", [CArg.ptr sr.cval, CArg.str (some ⟨1, name⟩),
          CArg.double defaultValue, CArg.outInt]⟩).double,
        ErrFromOGRErr (N ⟨"OSRGetProjParm", [CArg.ptr sr.cval, CArg.str (some ⟨1, name⟩),
          CArg.double defaultValue, CArg.outInt]⟩).outInt) := by
  refine ⟨rfl, rfl, ?_, rfl⟩
  simp [SpatialReference.NormalizedProjectionParameter, Run.callsTo, Run.calls, Run.ofStep,
    Frame.exit, Frame.call, Frame.defer, Frame.CString, Frame.init, Event.toCall]

/-- C9 (evaluation of the code): `FromESRI` makes one native call, to
`OSRImportFromProj4`, the PROJ.4 import entry point, and returns that call's mapped
status; its run is the run of `FromProj4` on the same input. -/
theorem FromESRI_calls_proj4_import (N : Native) (ErrFromOGRErr : Int → GoError)
    (sr : SpatialReference) (input : String) :
    sr.FromESRI N ErrFromOGRErr input = sr.FromProj4 N ErrFromOGRErr input ∧
    (sr.FromESRI N ErrFromOGRErr input).calls
      = [⟨"OSRImportFromProj4", [CArg.ptr sr.cval, CArg.str (some ⟨1, input⟩)]⟩] ∧
    (sr.FromESRI N ErrFromOGRErr input).result
      = .ok (ErrFromOGRErr
          (N ⟨"OSRImportFromProj4", [CArg.ptr sr.cval, CArg.str (some ⟨1, input⟩)]⟩).int) :=
  ⟨rfl, rfl, rfl⟩

/-- C10 (evaluation of the code): `FromURL` makes one native call, to
`OSRImportFromXML`, the XML import entry point, and returns that call's mapped status;
its run is the run of `FromXML` on the same string. -/
theorem FromURL_calls_xml_import (N : Native) (ErrFromOGRErr : Int → GoError)
    (sr : SpatialReference) (url : String) :
    sr.FromURL N ErrFromOGRErr url = sr.FromXML N ErrFromOGRErr url ∧
    (sr.FromURL N ErrFromOGRErr url).calls
      = [⟨"OSRImportFromXML", [CArg.ptr sr.cval, CArg.str (some ⟨1, url⟩)]⟩] ∧
    (sr.FromURL N ErrFromOGRErr url).result
      = .ok (ErrFromOGRErr
          (N ⟨"OSRImportFromXML", [CArg.ptr sr.cval, CArg.str (some ⟨1, url⟩)]⟩).int) :=
  ⟨rfl, rfl, rfl⟩

/-! ## Projection setters -/

/-- C11 (counterexample): `SetEckert` called with variation `4294967297` (2^32 + 1)
hands the native entry point the variation `1`: the Go `int` is converted to a 32-bit
C int, so the value does not reach the native call unchanged. -/
theorem SetEckert_truncates_variation :
    ((⟨1⟩ : SpatialReference).SetEckert (fun _ => ⟨0, 0, ⟨0⟩, 0⟩) (fun _ => none)
        4294967297 ⟨0⟩ ⟨0⟩ ⟨0⟩).calls
      = [⟨"OSRSetEckert", [CArg.ptr 1, CArg.int 1, CArg.double ⟨0⟩, CArg.double ⟨0⟩,
          CArg.double ⟨0⟩]⟩] ∧
    ((⟨1⟩ : SpatialReference).SetEckert (fun _ => ⟨0, 0, ⟨0⟩, 0⟩) (fun _ => none)
        4294967297 ⟨0⟩ ⟨0⟩ ⟨0⟩).calls
      ≠ [⟨"OSRSetEckert", [CArg.ptr 1, CArg.int 4294967297, CArg.double ⟨0⟩,
          CArg.double ⟨0⟩, CArg.double ⟨0⟩]⟩] := by
  constructor
  · rfl
  · decide

/-- C11 (amended): every projection setter makes exactly one native call, to the entry
point of the same projection, with the handle first and then its parameters in their
declared order, and returns the mapping of that call's status.  Every float64 parameter
and every name string reaches the call with its value unchanged; an integer parameter
(the variation of `SetEckert`, the zone of `SetUTM`, `SetStatePlane` and
`SetStatePlaneWithUnits`) reaches it converted to a 32-bit C int, and a bool through
`BoolToCInt`. -/
theorem projection_setters_forward (N : Native) (ErrFromOGRErr : Int → GoError)
    (BoolToCInt : Bool → Int) (sr : SpatialReference)
    (x1 x2 x3 x4 x5 x6 x7 x8 : Float64) (v : Int) (flag : Bool) (name : String) :
    (sr.SetUTM N ErrFromOGRErr BoolToCInt v flag).forwardsTo N ErrFromOGRErr
      ⟨"OSRSetUTM", [CArg.ptr sr.cval, CArg.int (cInt v), CArg.int (BoolToCInt flag)]⟩ ∧
    (sr.SetStatePlane N ErrFromOGRErr BoolToCInt v flag).forwardsTo N ErrFromOGRErr
      ⟨"OSRSetStatePlane", [CArg.ptr sr.cval, CArg.int (cInt v), CArg.int (BoolToCInt flag)]⟩ ∧
    (sr.SetStatePlaneWithUnits N ErrFromOGRErr BoolToCInt v flag name x1).forwardsTo N ErrFromOGRErr
      ⟨"OSRSetStatePlaneWithUnits", [CArg.ptr sr.cval, CArg.int (cInt v),
        CArg.int (BoolToCInt flag), CArg.str (some ⟨1, name⟩), CArg.double x1]⟩ ∧
    (sr.SetACEA N ErrFromOGRErr x1 x2 x3 x4 x5 x6).forwardsTo N ErrFromOGRErr
      ⟨"OSRSetACEA", [CArg.ptr sr.cval, CArg.double x1, CArg.double x2, CArg.double x3,
        CArg.double x4, CArg.double x5, CArg.double x6]⟩ ∧
    (sr.SetAE N ErrFromOGRErr x1 x2 x3 x4).forwardsTo N ErrFromOGRErr
      ⟨"OSRSetAE", [CArg.ptr sr.cval, CArg.double x1, CArg.double x2, CArg.double x3,
        CArg.double x4]⟩ ∧
    (sr.SetBonne N ErrFromOGRErr x1 x2 x3 x4).forwardsTo N ErrFromOGRErr
      ⟨"OSRSetBonne", [CArg.ptr sr.cval, CArg.double x1, CArg.double x2, CArg.double x3,
        CArg.double x4]⟩ ∧
    (sr.SetCEA N ErrFromOGRErr x1 x2 x3 x4).forwardsTo N ErrFromOGRErr
      ⟨"OSRSetCEA", [CArg.ptr sr.cval, CArg.double x1, CArg.double x2, CArg.double x3,
        CArg.double x4]⟩ ∧
    (sr.SetCS N ErrFromOGRErr x1 x2 x3 x4).forwardsTo N ErrFromOGRErr
      ⟨"OSRSetCS", [CArg.ptr sr.cval, CArg.double x1, CArg.double x2, CArg.double x3,
        CArg.double x4]⟩ ∧
    (sr.SetEC N ErrFromOGRErr x1 x2 x3 x4 x5 x6).forwardsTo N ErrFromOGRErr
      ⟨"OSRSetEC", [CArg.ptr sr.cval, CArg.double x1, CArg.double x2, CArg.double x3,
        CArg.double x4, CArg.double x5, CArg.double x6]⟩ ∧
    (sr.SetEckert N ErrFromOGRErr v x1 x2 x3).forwardsTo N ErrFromOGRErr
      ⟨"OSRSetEckert", [CArg.ptr sr.cval, CArg.int (cInt v), CArg.double x1, CArg.double x2,
        CArg.double x3]⟩ ∧
    (sr.SetEquirectangular N ErrFromOGRErr x1 x2 x3 x4).forwardsTo N ErrFromOGRErr
      ⟨"OSRSetEquirectangular", [CArg.ptr sr.cval, CArg.double x1, CArg.double x2,
        CArg.double x3, CArg.double x4]⟩ ∧
    (sr.SetEquirectangularGeneralized N ErrFromOGRErr x1 x2 x3 x4 x5).forwardsTo N ErrFromOGRErr
      ⟨"OSRSetEquirectangular2", [CArg.ptr sr.cval, CArg.double x1, CArg.double x2,
        CArg.double x3, CArg.double x4, CArg.double x5]⟩ ∧
    (sr.SetGS N ErrFromOGRErr x1 x2 x3).forwardsTo N ErrFromOGRErr
      ⟨"OSRSetGS", [CArg.ptr sr.cval, CArg.double x1, CArg.double x2, CArg.double x3]⟩ ∧
    (sr.SetGH N ErrFromOGRErr x1 x2 x3).forwardsTo N ErrFromOGRErr
      ⟨"OSRSetGH", [CArg.ptr sr.cval, CArg.double x1, CArg.double x2, CArg.double x3]⟩ ∧
    (sr.SetIGH N ErrFromOGRErr).forwardsTo N ErrFromOGRErr
      ⟨"OSRSetIGH", [CArg.ptr sr.cval]⟩ ∧
    (sr.SetGEOS N ErrFromOGRErr x1 x2 x3 x4).forwardsTo N ErrFromOGRErr
      ⟨"OSRSetGEOS", [CArg.ptr sr.cval, CArg.double x1, CArg.double x2, CArg.double x3,
        CArg.double x4]⟩ ∧
    (sr.SetGSTM N ErrFromOGRErr x1 x2 x3 x4 x5).forwardsTo N ErrFromOGRErr
      ⟨"OSRSetGaussSchreiberTMercator", [CArg.ptr sr.cval, CArg.double x1, CArg.double x2,
        CArg.double x3, CArg.double x4, CArg.double x5]⟩ ∧
    (sr.SetGnomonic N ErrFromOGRErr x1 x2 x3 x4).forwardsTo N ErrFromOGRErr
      ⟨"OSRSetGnomonic", [CArg.ptr sr.cval, CArg.double x1, CArg.double x2, CArg.double x3,
        CArg.double x4]⟩ ∧
    (sr.SetHOM N ErrFromOGRErr x1 x2 x3 x4 x5 x6 x7).forwardsTo N ErrFromOGRErr
      ⟨"OSRSetHOM", [CArg.ptr sr.cval, CArg.double x1, CArg.double x2, CArg.double x3,
        CArg.double x4, CArg.double x5, CArg.double x6, CArg.double x7]⟩ ∧
    (sr.SetHOM2PNO N ErrFromOGRErr x1 x2 x3 x4 x5 x6 x7 x8).forwardsTo N ErrFromOGRErr
      ⟨"OSRSetHOM2PNO", [CArg.ptr sr.cval, CArg.double x1, CArg.double x2, CArg.double x3,
        CArg.double x4, CArg.double x5, CArg.double x6, CArg.double x7, CArg.double x8]⟩ ∧
    (sr.SetIWMPolyconic N ErrFromOGRErr x1 x2 x3 x4 x5).forwardsTo N ErrFromOGRErr
      ⟨"OSRSetIWMPolyconic", [CArg.ptr sr.cval, CArg.double x1, CArg.double x2,
        CArg.double x3, CArg.double x4, CArg.double x5]⟩ ∧
    (sr.SetKrovak N ErrFromOGRErr x1 x2 x3 x4 x5 x6 x7).forwardsTo N ErrFromOGRErr
      ⟨"OSRSetKrovak", [CArg.ptr sr.cval, CArg.double x1, CArg.double x2, CArg.double x3,
        CArg.double x4, CArg.double x5, CArg.double x6, CArg.double x7]⟩ ∧
    (sr.SetLAEA N ErrFromOGRErr x1 x2 x3 x4).forwardsTo N ErrFromOGRErr
      ⟨"OSRSetLAEA", [CArg.ptr sr.cval, CArg.double x1, CArg.double x2, CArg.double x3,
        CArg.double x4]⟩ ∧
    (sr.SetLCC N ErrFromOGRErr x1 x2 x3 x4 x5 x6).forwardsTo N ErrFromOGRErr
      ⟨"OSRSetLCC", [CArg.ptr sr.cval, CArg.double x1, CArg.double x2, CArg.double x3,
        CArg.double x4, CArg.double x5, CArg.double x6]⟩ ∧
    (sr.SetLCC1SP N ErrFromOGRErr x1 x2 x3 x4 x5).forwardsTo N ErrFromOGRErr
      ⟨"OSRSetLCC1SP", [CArg.ptr sr.cval, CArg.double x1, CArg.double x2, CArg.double x3,
        CArg.double x4, CArg.double x5]⟩ ∧
    (sr.SetLCCB N ErrFromOGRErr x1 x2 x3 x4 x5 x6).forwardsTo N ErrFromOGRErr
      ⟨"OSRSetLCCB", [CArg.ptr sr.cval, CArg.double x1, CArg.double x2, CArg.double x3,
        CArg.double x4, CArg.double x5, CArg.double x6]⟩ ∧
    (sr.SetMC N ErrFromOGRErr x1 x2 x3 x4).forwardsTo N ErrFromOGRErr
      ⟨"OSRSetMC", [CArg.ptr sr.cval, CArg.double x1, CArg.double x2, CArg.double x3,
        CArg.double x4]⟩ ∧
    (sr.SetMercator N ErrFromOGRErr x1 x2 x3 x4 x5).forwardsTo N ErrFromOGRErr
      ⟨"OSRSetMercator", [CArg.ptr sr.cval, CArg.double x1, CArg.double x2, CArg.double x3,
        CArg.double x4, CArg.double x5]⟩ ∧
    (sr.SetMollweide N ErrFromOGRErr x1 x2 x3).forwardsTo N ErrFromOGRErr
      ⟨"OSRSetMollweide", [CArg.ptr sr.cval, CArg.double x1, CArg.double x2, CArg.double x3]⟩ ∧
    (sr.SetNZMG N ErrFromOGRErr x1 x2 x3 x4).forwardsTo N ErrFromOGRErr
      ⟨"OSRSetNZMG", [CArg.ptr sr.cval, CArg.double x1, CArg.double x2, CArg.double x3,
        CArg.double x4]⟩ ∧
    (sr.SetOS N ErrFromOGRErr x1 x2 x3 x4 x5).forwardsTo N ErrFromOGRErr
      ⟨"OSRSetOS", [CArg.ptr sr.cval, CArg.double x1, CArg.double x2, CArg.double x3,
        CArg.double x4, CArg.double x5]⟩ ∧
    (sr.SetOrthographic N ErrFromOGRErr x1 x2 x3 x4).forwardsTo N ErrFromOGRErr
      ⟨"OSRSetOrthographic", [CArg.ptr sr.cval, CArg.double x1, CArg.double x2,
        CArg.double x3, CArg.double x4]⟩ ∧
    (sr.SetPolyconic N ErrFromOGRErr x1 x2 x3 x4).forwardsTo N ErrFromOGRErr
      ⟨"OSRSetPolyconic", [CArg.ptr sr.cval, CArg.double x1, CArg.double x2, CArg.double x3,
        CArg.double x4]⟩ ∧
    (sr.SetPS N ErrFromOGRErr x1 x2 x3 x4 x5).forwardsTo N ErrFromOGRErr
      ⟨"OSRSetPS", [CArg.ptr sr.cval, CArg.double x1, CArg.double x2, CArg.double x3,
        CArg.double x4, CArg.double x5]⟩ ∧
    (sr.SetRobinson N ErrFromOGRErr x1 x2 x3).forwardsTo N ErrFromOGRErr
      ⟨"OSRSetRobinson", [CArg.ptr sr.cval, CArg.double x1, CArg.double x2, CArg.double x3]⟩ ∧
    (sr.SetSinusoidal N ErrFromOGRErr x1 x2 x3).forwardsTo N ErrFromOGRErr
      ⟨"OSRSetSinusoidal", [CArg.ptr sr.cval, CArg.double x1, CArg.double x2, CArg.double x3]⟩ ∧
    (sr.SetStereographic N ErrFromOGRErr x1 x2 x3 x4 x5).forwardsTo N ErrFromOGRErr
      ⟨"OSRSetStereographic", [CArg.ptr sr.cval, CArg.double x1, CArg.double x2,
        CArg.double x3, CArg.double x4, CArg.double x5]⟩ ∧
    (sr.SetSOC N ErrFromOGRErr x1 x2 x3 x4).forwardsTo N ErrFromOGRErr
      ⟨"OSRSetSOC", [CArg.ptr sr.cval, CArg.double x1, CArg.double x2, CArg.double x3,
        CArg.double x4]⟩ ∧
    (sr.SetTM N ErrFromOGRErr x1 x2 x3 x4 x5).forwardsTo N ErrFromOGRErr
      ⟨"OSRSetTM", [CArg.ptr sr.cval, CArg.double x1, CArg.double x2, CArg.double x3,
        CArg.double x4, CArg.double x5]⟩ ∧
    (sr.SetTMVariant N ErrFromOGRErr name x1 x2 x3 x4 x5).forwardsTo N ErrFromOGRErr
      ⟨"OSRSetTMVariant", [CArg.ptr sr.cval, CArg.str (some ⟨1, name⟩), CArg.double x1,
        CArg.double x2, CArg.double x3, CArg.double x4, CArg.double x5]⟩ ∧
    (sr.SetTMG N ErrFromOGRErr x1 x2 x3 x4).forwardsTo N ErrFromOGRErr
      ⟨"OSRSetTMG", [CArg.ptr sr.cval, CArg.double x1, CArg.double x2, CArg.double x3,
        CArg.double x4]⟩ ∧
    (sr.SetTMSO N ErrFromOGRErr x1 x2 x3 x4 x5).forwardsTo N ErrFromOGRErr
      ⟨"OSRSetTMSO", [CArg.ptr sr.cval, CArg.double x1, CArg.double x2, CArg.double x3,
        CArg.double x4, CArg.double x5]⟩ ∧
    (sr.SetVDG N ErrFromOGRErr x1 x2 x3).forwardsTo N ErrFromOGRErr
      ⟨"OSRSetVDG", [CArg.ptr sr.cval, CArg.double x1, CArg.double x2, CArg.double x3]⟩ := by
  refine ⟨?_, ?_, ?_, ?_, ?_, ?_, ?_, ?_, ?_, ?_, ?_, ?_, ?_, ?_, ?_, ?_, ?_, ?_, ?_, ?_,
    ?_, ?_, ?_, ?_, ?_, ?_, ?_, ?_, ?_, ?_, ?_, ?_, ?_, ?_, ?_, ?_, ?_, ?_, ?_, ?_, ?_,
    ?_, ?_⟩ <;>
    exact ⟨rfl, rfl⟩

/-! ## Coordinate transformation and exports -/

/-- C12 (evaluation of the code): `Transform` called with empty X, Y and Z arrays and
`numPoints = 0` panics at `&xPoints[0]` (index out of range [0] with length 0); the
native transform is never called.  The same happens for every `numPoints` and all Y and
Z arrays as soon as the X array is empty. -/
theorem Transform_panics_on_empty_arrays (N : Native) (ct : CoordinateTransform)
    (numPoints : Int) (yPoints zPoints : List Float64) :
    (ct.Transform N 0 [] [] []).result = .error (Fault.indexOutOfRange 0 0) ∧
    (ct.Transform N 0 [] [] []).calls = [] ∧
    (ct.Transform N numPoints [] yPoints zPoints).result
      = .error (Fault.indexOutOfRange 0 0) ∧
    (ct.Transform N numPoints [] yPoints zPoints).calls = [] :=
  ⟨rfl, rfl, rfl, rfl⟩

/-- C13 (evaluation of the code): for every spatial reference and every behaviour of
the native library, `ToPCI` and `ToUSGS` panic at `&params[0]` (index out of range [0]
with length 0, the named result `params` being nil) before the native export is called;
neither returns a result. -/
theorem ToPCI_ToUSGS_always_panic (N : Native) (S : NativeStores)
    (ErrFromOGRErr : Int → GoError) (sr : SpatialReference) :
    ((sr.ToPCI N S ErrFromOGRErr).result = .error (Fault.indexOutOfRange 0 0) ∧
      (sr.ToPCI N S ErrFromOGRErr).calls = []) ∧
    ((sr.ToUSGS N S ErrFromOGRErr).result = .error (Fault.indexOutOfRange 0 0) ∧
      (sr.ToUSGS N S ErrFromOGRErr).calls = []) :=
  ⟨⟨rfl, rfl⟩, ⟨rfl, rfl⟩⟩

/-- C14 (evaluation of the code): `ToWKT`, `ToPrettyWKT` and `ToProj4` never call
`C.free`: whatever buffer the native export stored, they return its Go copy and leave
the buffer allocated.  `ToXML` and `ToMICoordSys` free the stored buffer once. -/
theorem ToWKT_ToPrettyWKT_ToProj4_never_free (N : Native) (S : NativeStores)
    (ErrFromOGRErr : Int → GoError) (BoolToCInt : Bool → Int) (sr : SpatialReference)
    (simplify : Bool) :
    ((sr.ToWKT N S ErrFromOGRErr).freed = [] ∧
      (sr.ToPrettyWKT N S ErrFromOGRErr BoolToCInt simplify).freed = [] ∧
      (sr.ToProj4 N S ErrFromOGRErr).freed = []) ∧
    ((sr.ToWKT N S ErrFromOGRErr).result
        = .ok (GoString ((S ⟨"OSRExportToWkt", [CArg.ptr sr.cval, CArg.outStr]⟩).strs.getD
            0 none),
          ErrFromOGRErr (N ⟨"OSRExportToWkt", [CArg.ptr sr.cval, CArg.outStr]⟩).int)) ∧
    ((sr.ToXML N S ErrFromOGRErr).freed
        = [((S ⟨"OSRExportToXML", [CArg.ptr sr.cval, CArg.outStr, CArg.ptr 0]⟩).strs.getD
            0 none).addr] ∧
      (sr.ToMICoordSys N S ErrFromOGRErr).freed
        = [((S ⟨"OSRExportToMICoordSys", [CArg.ptr sr.cval, CArg.outStr]⟩).strs.getD
            0 none).addr]) :=
  ⟨⟨rfl, rfl, rfl⟩, rfl, rfl, rfl⟩

/-! ## Buffers and option arrays of the batch utilities -/

theorem ContourGenerate_some_eq (N : Native) (Err : Int → GoError) (band : RasterBand)
    (layer : Layer) (options : List String) (progress : ProgressFunc) (data : UserData) :
    ContourGenerate N Err band layer (some options) progress data
      = contourRun N Err band layer options progress data := by
  simp only [ContourGenerate, marshalOptions_eq, Step.bind, addrOfFirst, Run.ofStep,
    Frame.exit, Frame.call, frameAfterOptions, Frame.init, contourRun, argvOf, optionAllocs,
    optionFrees]
  by_cases hp : (progress.goPointer || data.goPointer) = true
  · simp [cstrsFrom_length, hp]
  · simp [cstrsFrom_length, hp]

theorem ContourGenerate_none_eq (N : Native) (Err : Int → GoError) (band : RasterBand)
    (layer : Layer) (progress : ProgressFunc) (data : UserData) :
    ContourGenerate N Err band layer none progress data
      = contourRunNil N Err band layer progress data := by
  by_cases hp : (progress.goPointer || data.goPointer) = true
  · simp [ContourGenerate, contourRunNil, Step.bind, Run.ofStep, Frame.exit, Frame.call,
      Frame.init, hp]
  · simp [ContourGenerate, contourRunNil, Step.bind, Run.ofStep, Frame.exit, Frame.call,
      Frame.init, hp]

theorem addr_cstrsFrom (base : Nat) (l : List String) :
    (cstrsFrom base l).map CStr.addr = List.range' base l.length := by
  induction l generalizing base with
  | nil => rfl
  | cons s rest ih => simp [cstrsFrom, ih, List.range'_succ]

theorem allocAddr_optionAllocs (opts : List String) :
    (optionAllocs opts).filterMap Event.allocAddr = List.range' 1 opts.length := by
  rw [← addr_cstrsFrom]
  have h := congrFun (List.filterMap_eq_map CStr.addr) (cstrsFrom 1 opts)
  simpa [optionAllocs, List.filterMap_map, Function.comp_def, Event.allocAddr] using h

theorem freeAddr_optionFrees (opts : List String) :
    (optionFrees opts).filterMap Event.freeAddr = (List.range' 1 opts.length).reverse := by
  rw [← addr_cstrsFrom]
  have h := congrFun (List.filterMap_eq_map CStr.addr) (cstrsFrom 1 opts)
  simpa [optionFrees, List.filterMap_map, Function.comp_def, Event.freeAddr,
    List.filterMap_reverse] using h

theorem allocAddr_optionFrees (opts : List String) :
    (optionFrees opts).filterMap Event.allocAddr = [] := by
  simp [optionFrees, List.filterMap_eq_nil_iff, Event.allocAddr]

theorem freeAddr_optionAllocs (opts : List String) :
    (optionAllocs opts).filterMap Event.freeAddr = [] := by
  simp [optionAllocs, List.filterMap_eq_nil_iff, Event.freeAddr]

theorem released_once_of_range (al fr : List Nat) (k : Nat) (hal : al = List.range' 1 k)
    (hfr : fr = (List.range' 1 k).reverse) : al.Nodup ∧ fr.Perm al := by
  subst hal hfr
  exact ⟨List.nodup_range' 1 k, List.reverse_perm _⟩

theorem range_one_concat (n : Nat) : List.range' 1 n ++ [1 + n] = List.range' 1 (n + 1) := by
  rw [List.range'_concat]
  simp

theorem warpRun_buffers (N : Native) (dst : String) (destDS : Option Dataset)
    (sourceDS : List Dataset) (opts : List String) :
    (warpRun N dst destDS sourceDS opts).allocated = List.range' 1 (opts.length + 1) ∧
    (warpRun N dst destDS sourceDS opts).freed
      = (List.range' 1 (opts.length + 1)).reverse := by
  rw [← range_one_concat]
  by_cases hs : sourceDS = [] <;>
  simp [warpRun, Run.allocated, Run.freed, hs, List.filterMap_append, allocAddr_optionAllocs,
    allocAddr_optionFrees, freeAddr_optionAllocs, freeAddr_optionFrees, Event.allocAddr,
    Event.freeAddr]

theorem translateRun_buffers (N : Native) (dst : String) (src : Dataset)
    (opts : List String) :
    (translateRun N dst src opts).allocated = List.range' 1 (opts.length + 1) ∧
    (translateRun N dst src opts).freed = (List.range' 1 (opts.length + 1)).reverse := by
  rw [← range_one_concat]
  simp [translateRun, Run.allocated, Run.freed, List.filterMap_append,
    allocAddr_optionAllocs, allocAddr_optionFrees, freeAddr_optionAllocs,
    freeAddr_optionFrees, Event.allocAddr, Event.freeAddr]

theorem vectorTranslateRun_buffers (N : Native) (dst : String) (sourceDS : List Dataset)
    (opts : List String) :
    (vectorTranslateRun N dst sourceDS opts).allocated = List.range' 1 (opts.length + 1) ∧
    (vectorTranslateRun N dst sourceDS opts).freed
      = (List.range' 1 (opts.length + 1)).reverse := by
  rw [← range_one_concat]
  by_cases hs : sourceDS = [] <;>
  simp [vectorTranslateRun, Run.allocated, Run.freed, hs, List.filterMap_append,
    allocAddr_optionAllocs, allocAddr_optionFrees, freeAddr_optionAllocs,
    freeAddr_optionFrees, Event.allocAddr, Event.freeAddr]

theorem rasterizeRun_buffers (N : Native) (dst : String) (src : Dataset)
    (opts : List String) :
    (rasterizeRun N dst src opts).allocated = List.range' 1 (opts.length + 1) ∧
    (rasterizeRun N dst src opts).freed = (List.range' 1 (opts.length + 1)).reverse := by
  rw [← range_one_concat]
  simp [rasterizeRun, Run.allocated, Run.freed, List.filterMap_append,
    allocAddr_optionAllocs, allocAddr_optionFrees, freeAddr_optionAllocs,
    freeAddr_optionFrees, Event.allocAddr, Event.freeAddr]

theorem demProcessingRun_buffers (N : Native) (dst : String) (src : Dataset)
    (processing colorFileName : String) (opts : List String) :
    (demProcessingRun N dst src processing colorFileName opts).allocated
      = List.range' 1 (opts.length + 3) ∧
    (demProcessingRun N dst src processing colorFileName opts).freed
      = (List.range' 1 (opts.length + 3)).reverse := by
  have h : List.range' 1 (opts.length + 3)
      = List.range' 1 opts.length ++ [1 + opts.length, 2 + opts.length, 3 + opts.length] := by
    rw [List.range'_concat, List.range'_concat, List.range'_concat]
    simp [Nat.add_comm]
    constructor <;> omega
  rw [h]
  simp [demProcessingRun, Run.allocated, Run.freed, List.filterMap_append,
    allocAddr_optionAllocs, allocAddr_optionFrees, freeAddr_optionAllocs,
    freeAddr_optionFrees, Event.allocAddr, Event.freeAddr]

theorem contourRun_buffers (N : Native) (Err : Int → GoError) (band : RasterBand)
    (layer : Layer) (opts : List String) (progress : ProgressFunc) (data : UserData) :
    (contourRun N Err band layer opts progress data).allocated
      = List.range' 1 opts.length ∧
    (contourRun N Err band layer opts progress data).freed
      = (List.range' 1 opts.length).reverse := by
  by_cases hp : (progress.goPointer || data.goPointer) = true <;>
  simp [contourRun, Run.allocated, Run.freed, List.filterMap_append, hp,
    allocAddr_optionAllocs, allocAddr_optionFrees, freeAddr_optionAllocs,
    freeAddr_optionFrees, Event.allocAddr, Event.freeAddr]

theorem contourRunNil_buffers (N : Native) (Err : Int → GoError) (band : RasterBand)
    (layer : Layer) (progress : ProgressFunc) (data : UserData) :
    (contourRunNil N Err band layer progress data).allocated = [] ∧
    (contourRunNil N Err band layer progress data).freed = [] := by
  by_cases hp : (progress.goPointer || data.goPointer) = true <;>
  simp [contourRunNil, Run.allocated, Run.freed, hp, Event.allocAddr, Event.freeAddr]

theorem val_cstrsFrom (base : Nat) (l : List String) :
    (cstrsFrom base l).map CStr.val = l := by
  induction l generalizing base with
  | nil => rfl
  | cons s rest ih => simp [cstrsFrom, ih]

theorem argvOf_length (opts : List String) : (argvOf opts).length = opts.length + 1 := by
  simp [argvOf, cstrsFrom_length]

theorem argvOf_vals (opts : List String) :
    (argvOf opts).map (Option.map CStr.val) = opts.map some ++ [none] := by
  have h := val_cstrsFrom 1 opts
  simp only [argvOf, List.map_append, List.map_map, List.map_cons, List.map_nil,
    Option.map_none']
  congr 1
  conv_rhs => rw [← h]
  simp [List.map_map, Function.comp_def]

theorem warpRun_option_calls (N : Native) (dst : String) (destDS : Option Dataset)
    (sourceDS : List Dataset) (opts : List String) :
    (warpRun N dst destDS sourceDS opts).callsTo "GDALWarpAppOptionsNew"
      = [⟨"GDALWarpAppOptionsNew", [CArg.strv (argvOf opts), CArg.ptr 0]⟩] ∧
    (warpRun N dst destDS sourceDS opts).callsTo "GDALWarpAppOptionsFree"
      = [⟨"GDALWarpAppOptionsFree",
          [CArg.ptr (N ⟨"GDALWarpAppOptionsNew", [CArg.strv (argvOf opts), CArg.ptr 0]⟩).ptr]⟩]
    := by
  by_cases hs : sourceDS = [] <;>
  simp [warpRun, Run.callsTo, Run.calls, hs, toCall_optionAllocs, toCall_optionFrees,
    Event.toCall, List.filterMap_append]

theorem translateRun_option_calls (N : Native) (dst : String) (src : Dataset)
    (opts : List String) :
    (translateRun N dst src opts).callsTo "GDALTranslateOptionsNew"
      = [⟨"GDALTranslateOptionsNew", [CArg.strv (argvOf opts), CArg.ptr 0]⟩] ∧
    (translateRun N dst src opts).callsTo "GDALTranslateOptionsFree"
      = [⟨"GDALTranslateOptionsFree", [CArg.ptr
          (N ⟨"GDALTranslateOptionsNew", [CArg.strv (argvOf opts), CArg.ptr 0]⟩).ptr]⟩] := by
  simp [translateRun, Run.callsTo, Run.calls, toCall_optionAllocs, toCall_optionFrees,
    Event.toCall, List.filterMap_append]

theorem vectorTranslateRun_option_calls (N : Native) (dst : String)
    (sourceDS : List Dataset) (opts : List String) :
    (vectorTranslateRun N dst sourceDS opts).callsTo "GDALVectorTranslateOptionsNew"
      = [⟨"GDALVectorTranslateOptionsNew", [CArg.strv (argvOf opts), CArg.ptr 0]⟩] ∧
    (vectorTranslateRun N dst sourceDS opts).callsTo "GDALVectorTranslateOptionsFree"
      = [⟨"GDALVectorTranslateOptionsFree", [CArg.ptr
          (N ⟨"GDALVectorTranslateOptionsNew",
            [CArg.strv (argvOf opts), CArg.ptr 0]⟩).ptr]⟩] := by
  by_cases hs : sourceDS = [] <;>
  simp [vectorTranslateRun, Run.callsTo, Run.calls, hs, toCall_optionAllocs,
    toCall_optionFrees, Event.toCall, List.filterMap_append]

theorem rasterizeRun_option_calls (N : Native) (dst : String) (src : Dataset)
    (opts : List String) :
    (rasterizeRun N dst src opts).callsTo "GDALRasterizeOptionsNew"
      = [⟨"GDALRasterizeOptionsNew", [CArg.strv (argvOf opts), CArg.ptr 0]⟩] ∧
    (rasterizeRun N dst src opts).callsTo "GDALRasterizeOptionsFree"
      = [⟨"GDALRasterizeOptionsFree", [CArg.ptr
          (N ⟨"GDALRasterizeOptionsNew", [CArg.strv (argvOf opts), CArg.ptr 0]⟩).ptr]⟩] := by
  simp [rasterizeRun, Run.callsTo, Run.calls, toCall_optionAllocs, toCall_optionFrees,
    Event.toCall, List.filterMap_append]

theorem demProcessingRun_option_calls (N : Native) (dst : String) (src : Dataset)
    (processing colorFileName : String) (opts : List String) :
    (demProcessingRun N dst src processing colorFileName opts).callsTo
        "GDALDEMProcessingOptionsNew"
      = [⟨"GDALDEMProcessingOptionsNew", [CArg.strv (argvOf opts), CArg.ptr 0]⟩] ∧
    (demProcessingRun N dst src processing colorFileName opts).callsTo
        "GDALDEMProcessingOptionsFree"
      = [⟨"GDALDEMProcessingOptionsFree", [CArg.ptr
          (N ⟨"GDALDEMProcessingOptionsNew",
            [CArg.strv (argvOf opts), CArg.ptr 0]⟩).ptr]⟩] := by
  simp [demProcessingRun, Run.callsTo, Run.calls, toCall_optionAllocs, toCall_optionFrees,
    Event.toCall, List.filterMap_append]

theorem contourRun_contour_calls (N : Native) (Err : Int → GoError) (band : RasterBand)
    (layer : Layer) (opts : List String) (progress : ProgressFunc) (data : UserData) :
    (contourRun N Err band layer opts progress data).callsTo "GDALContourGenerateEx"
      = if (progress.goPointer || data.goPointer) = true then []
        else [⟨"GDALContourGenerateEx", [CArg.ptr band.cval, CArg.ptr layer.cval,
          CArg.strv (argvOf opts), CArg.ptr (N ⟨"goGDALProgressFuncProxyB", []⟩).ptr,
          CArg.proxyArgs progress.id data.id]⟩] := by
  by_cases hp : (progress.goPointer || data.goPointer) = true <;>
  simp [contourRun, Run.callsTo, Run.calls, hp, toCall_optionAllocs, toCall_optionFrees,
    Event.toCall, List.filterMap_append]

theorem contourRunNil_contour_calls (N : Native) (Err : Int → GoError) (band : RasterBand)
    (layer : Layer) (progress : ProgressFunc) (data : UserData) :
    (contourRunNil N Err band layer progress data).callsTo "GDALContourGenerateEx"
      = if (progress.goPointer || data.goPointer) = true then []
        else [⟨"GDALContourGenerateEx", [CArg.ptr band.cval, CArg.ptr layer.cval,
          CArg.ptr 0, CArg.ptr (N ⟨"goGDALProgressFuncProxyB", []⟩).ptr,
          CArg.proxyArgs progress.id data.id]⟩] := by
  by_cases hp : (progress.goPointer || data.goPointer) = true <;>
  simp [contourRunNil, Run.callsTo, Run.calls, hp, Event.toCall]

theorem releasesItsStrings_of_range {α : Type} (r : Run α) (k : Nat)
    (h : r.allocated = List.range' 1 k ∧ r.freed = (List.range' 1 k).reverse) :
    r.releasesItsStrings :=
  released_once_of_range _ _ k h.1 h.2

/-- C15: in every batch utility (Warp, Translate, VectorTranslate, Rasterize,
DEMProcessing, ContourGenerate), for all arguments and every behaviour of the native
library (so on the error path as on the success path, and also when the utility panics,
at `&srcDS[0]` or in the cgo pointer check),
one C string is allocated for each option string and for the destination (and for the
processing and colour-file arguments of DEMProcessing), every allocated C string is freed
exactly once before the utility returns, and nothing else is freed; the native options
structure is released exactly once, by the destructor called on the pointer the
constructor returned. -/
theorem batch_utilities_release_everything (N : Native) (Err : Int → GoError)
    (dstDS : String) (destDS : Option Dataset) (sourceDS : List Dataset) (src : Dataset)
    (processing colorFileName : String) (options : List String) (band : RasterBand)
    (layer : Layer) (coptions : Option (List String)) (progress : ProgressFunc)
    (data : UserData) :
    ((Warp N dstDS destDS sourceDS options).releasesItsStrings ∧
      (Warp N dstDS destDS sourceDS options).allocatesFor "GDALWarpAppOptionsNew" 1 ∧
      (Warp N dstDS destDS sourceDS options).releasesOptions N
        "GDALWarpAppOptionsNew" "GDALWarpAppOptionsFree") ∧
    ((Translate N dstDS src options).releasesItsStrings ∧
      (Translate N dstDS src options).allocatesFor "GDALTranslateOptionsNew" 1 ∧
      (Translate N dstDS src options).releasesOptions N
        "GDALTranslateOptionsNew" "GDALTranslateOptionsFree") ∧
    ((VectorTranslate N dstDS sourceDS options).releasesItsStrings ∧
      (VectorTranslate N dstDS sourceDS options).allocatesFor
        "GDALVectorTranslateOptionsNew" 1 ∧
      (VectorTranslate N dstDS sourceDS options).releasesOptions N
        "GDALVectorTranslateOptionsNew" "GDALVectorTranslateOptionsFree") ∧
    ((Rasterize N dstDS src options).releasesItsStrings ∧
      (Rasterize N dstDS src options).allocatesFor "GDALRasterizeOptionsNew" 1 ∧
      (Rasterize N dstDS src options).releasesOptions N
        "GDALRasterizeOptionsNew" "GDALRasterizeOptionsFree") ∧
    ((DEMProcessing N dstDS src processing colorFileName options).releasesItsStrings ∧
      (DEMProcessing N dstDS src processing colorFileName options).allocatesFor
        "GDALDEMProcessingOptionsNew" 3 ∧
      (DEMProcessing N dstDS src processing colorFileName options).releasesOptions N
        "GDALDEMProcessingOptionsNew" "GDALDEMProcessingOptionsFree") ∧
    ((ContourGenerate N Err band layer coptions progress data).releasesItsStrings ∧
      (ContourGenerate N Err band layer coptions progress data).allocated.length
        = (coptions.getD []).length) := by
  refine ⟨?_, ?_, ?_, ?_, ?_, ?_⟩
  · rw [Warp_eq]
    exact ⟨releasesItsStrings_of_range _ _ (warpRun_buffers _ _ _ _ _),
      ⟨_, _, (warpRun_option_calls _ _ _ _ _).1, congrArg some (cStrings_argvOf _),
        by rw [(warpRun_buffers _ _ _ _ _).1]; simp⟩,
      ⟨_, (warpRun_option_calls _ _ _ _ _).1, (warpRun_option_calls _ _ _ _ _).2⟩⟩
  · rw [Translate_eq]
    exact ⟨releasesItsStrings_of_range _ _ (translateRun_buffers _ _ _ _),
      ⟨_, _, (translateRun_option_calls _ _ _ _).1, congrArg some (cStrings_argvOf _),
        by rw [(translateRun_buffers _ _ _ _).1]; simp⟩,
      ⟨_, (translateRun_option_calls _ _ _ _).1, (translateRun_option_calls _ _ _ _).2⟩⟩
  · rw [VectorTranslate_eq]
    exact ⟨releasesItsStrings_of_range _ _ (vectorTranslateRun_buffers _ _ _ _),
      ⟨_, _, (vectorTranslateRun_option_calls _ _ _ _).1,
        congrArg some (cStrings_argvOf _),
        by rw [(vectorTranslateRun_buffers _ _ _ _).1]; simp⟩,
      ⟨_, (vectorTranslateRun_option_calls _ _ _ _).1,
        (vectorTranslateRun_option_calls _ _ _ _).2⟩⟩
  · rw [Rasterize_eq]
    exact ⟨releasesItsStrings_of_range _ _ (rasterizeRun_buffers _ _ _ _),
      ⟨_, _, (rasterizeRun_option_calls _ _ _ _).1, congrArg some (cStrings_argvOf _),
        by rw [(rasterizeRun_buffers _ _ _ _).1]; simp⟩,
      ⟨_, (rasterizeRun_option_calls _ _ _ _).1, (rasterizeRun_option_calls _ _ _ _).2⟩⟩
  · rw [DEMProcessing_eq]
    exact ⟨releasesItsStrings_of_range _ _ (demProcessingRun_buffers _ _ _ _ _ _),
      ⟨_, _, (demProcessingRun_option_calls _ _ _ _ _ _).1,
        congrArg some (cStrings_argvOf _),
        by rw [(demProcessingRun_buffers _ _ _ _ _ _).1]; simp⟩,
      ⟨_, (demProcessingRun_option_calls _ _ _ _ _ _).1,
        (demProcessingRun_option_calls _ _ _ _ _ _).2⟩⟩
  · cases coptions with
    | none =>
      rw [ContourGenerate_none_eq]
      have hb := contourRunNil_buffers N Err band layer progress data
      refine ⟨?_, by rw [hb.1]; rfl⟩
      unfold Run.releasesItsStrings
      rw [hb.1, hb.2]
      exact ⟨List.nodup_nil, List.Perm.refl _⟩
    | some l =>
      rw [ContourGenerate_some_eq]
      exact ⟨releasesItsStrings_of_range _ _ (contourRun_buffers _ _ _ _ _ _ _),
        by rw [(contourRun_buffers _ _ _ _ _ _ _).1]; simp⟩

/-- C16 (counterexample): `ContourGenerate` called with a closure as progress function
panics in the cgo pointer check, after marshaling the options and fetching the proxy:
the native contour entry point is never called and no status is returned. -/
theorem ContourGenerate_closure_panics :
    (ContourGenerate (fun _ => ⟨0, 0, ⟨0⟩, 0⟩) (fun _ => none) ⟨1⟩ ⟨2⟩
        (some ["LEVEL_INTERVAL=20"]) ⟨1, true⟩ ⟨0, false⟩).result
      = .error Fault.cgoPointer ∧
    (ContourGenerate (fun _ => ⟨0, 0, ⟨0⟩, 0⟩) (fun _ => none) ⟨1⟩ ⟨2⟩
        (some ["LEVEL_INTERVAL=20"]) ⟨1, true⟩ ⟨0, false⟩).callsTo
        "GDALContourGenerateEx" = [] := by
  constructor
  · rfl
  · decide

/-- C16 (amended): for every band, layer and options, and every progress function and
user-data value that hold no pointer into Go-managed memory (nil or a top-level function
such as `DummyProgress`; nil or pointer-free data), `ContourGenerate` makes one call to
the native contour entry point (after fetching the progress proxy), handing it the band
and layer handles, the options and a proxy argument holding exactly the given progress
function and user-data value, and returns the mapping of the native status.  The options
are the null pointer when `options` is nil, and otherwise the array of one `C.CString`
copy per option, same strings in the same order, followed by the null terminator (the
lone terminator for an empty non-nil slice). -/
theorem ContourGenerate_threads_arguments (N : Native) (Err : Int → GoError)
    (band : RasterBand) (layer : Layer) (options : List String) (progress : ProgressFunc)
    (data : UserData) (hp : progress.goPointer = false) (hd : data.goPointer = false) :
    ((ContourGenerate N Err band layer none progress data).callsTo "GDALContourGenerateEx"
        = [⟨"GDALContourGenerateEx", [CArg.ptr band.cval, CArg.ptr layer.cval, CArg.ptr 0,
            CArg.ptr (N ⟨"goGDALProgressFuncProxyB", []⟩).ptr,
            CArg.proxyArgs progress.id data.id]⟩] ∧
      (ContourGenerate N Err band layer none progress data).result
        = .ok (Err (N ⟨"GDALContourGenerateEx", [CArg.ptr band.cval, CArg.ptr layer.cval,
            CArg.ptr 0, CArg.ptr (N ⟨"goGDALProgressFuncProxyB", []⟩).ptr,
            CArg.proxyArgs progress.id data.id]⟩).int)) ∧
    (∃ argv : List CharPtr,
      argv.map (Option.map CStr.val) = options.map some ++ [none] ∧
      (ContourGenerate N Err band layer (some options) progress data).callsTo
          "GDALContourGenerateEx"
        = [⟨"GDALContourGenerateEx", [CArg.ptr band.cval, CArg.ptr layer.cval,
            CArg.strv argv, CArg.ptr (N ⟨"goGDALProgressFuncProxyB", []⟩).ptr,
            CArg.proxyArgs progress.id data.id]⟩] ∧
      (ContourGenerate N Err band layer (some options) progress data).result
        = .ok (Err (N ⟨"GDALContourGenerateEx", [CArg.ptr band.cval, CArg.ptr layer.cval,
            CArg.strv argv, CArg.ptr (N ⟨"goGDALProgressFuncProxyB", []⟩).ptr,
            CArg.proxyArgs progress.id data.id]⟩).int)) ∧
    (ContourGenerate N Err band layer (some []) progress data).callsTo
        "GDALContourGenerateEx"
      = [⟨"GDALContourGenerateEx", [CArg.ptr band.cval, CArg.ptr layer.cval,
          CArg.strv [none], CArg.ptr (N ⟨"goGDALProgressFuncProxyB", []⟩).ptr,
          CArg.proxyArgs progress.id data.id]⟩] := by
  have hno : ¬ (progress.goPointer || data.goPointer) = true := by simp [hp, hd]
  refine ⟨⟨?_, ?_⟩, ⟨argvOf options, argvOf_vals options, ?_, ?_⟩, ?_⟩
  · rw [ContourGenerate_none_eq, contourRunNil_contour_calls, if_neg hno]
  · rw [ContourGenerate_none_eq]
    simp only [contourRunNil, if_neg hno]
  · rw [ContourGenerate_some_eq, contourRun_contour_calls, if_neg hno]
  · rw [ContourGenerate_some_eq]
    simp only [contourRun, if_neg hno]
  · rw [ContourGenerate_some_eq, contourRun_contour_calls, if_neg hno]
    rfl

/-- Witness for the amended C16 at the input of `TestGenerateContours`: the top-level
function `DummyProgress`, nil user data and the options `["LEVEL_INTERVAL=20"]`. -/
theorem ContourGenerate_threads_arguments_witness :
    ((⟨1, false⟩ : ProgressFunc).goPointer = false ∧
      (⟨0, false⟩ : UserData).goPointer = false) ∧
    ∃ argv : List CharPtr,
      argv.map (Option.map CStr.val) = ["LEVEL_INTERVAL=20"].map some ++ [none] ∧
      (ContourGenerate (fun _ => ⟨7, 0, ⟨0⟩, 0⟩) (fun _ => none) ⟨1⟩ ⟨2⟩
          (some ["LEVEL_INTERVAL=20"]) ⟨1, false⟩ ⟨0, false⟩).callsTo
          "GDALContourGenerateEx"
        = [⟨"GDALContourGenerateEx", [CArg.ptr (⟨1⟩ : RasterBand).cval,
            CArg.ptr (⟨2⟩ : Layer).cval, CArg.strv argv,
            CArg.ptr ((fun _ => ⟨7, 0, ⟨0⟩, 0⟩ : Native)
              ⟨"goGDALProgressFuncProxyB", []⟩).ptr,
            CArg.proxyArgs (⟨1, false⟩ : ProgressFunc).id (⟨0, false⟩ : UserData).id]⟩] ∧
      (ContourGenerate (fun _ => ⟨7, 0, ⟨0⟩, 0⟩) (fun _ => none) ⟨1⟩ ⟨2⟩
          (some ["LEVEL_INTERVAL=20"]) ⟨1, false⟩ ⟨0, false⟩).result = .ok none :=
  ⟨⟨rfl, rfl⟩,
   (ContourGenerate_threads_arguments (fun _ => ⟨7, 0, ⟨0⟩, 0⟩) (fun _ => none) ⟨1⟩ ⟨2⟩
      ["LEVEL_INTERVAL=20"] ⟨1, false⟩ ⟨0, false⟩ rfl rfl).2.1⟩

/-- C17: the marshaling of an option list never indexes out of range, for any list and
from any state, and in every batch utility the array handed to the native side has
exactly one entry per effective option plus one: entry `i` is a C string holding the
`i`-th effective option and the last entry is the null terminator.  The effective
options are the caller's, preceded or not by the injected format pair.  This includes
the empty list, for which the array is the lone terminator.  `ContourGenerate` builds
one C string per option in every run, never fails with an index out of range, and hands
the array over in every run that reaches the native contour call (every run but those
stopped by the cgo pointer check). -/
theorem options_array_shape (N : Native) (Err : Int → GoError) (dstDS : String)
    (destDS : Option Dataset) (sourceDS : List Dataset) (src : Dataset)
    (processing colorFileName : String) (options : List String) (band : RasterBand)
    (layer : Layer) (progress : ProgressFunc) (data : UserData) :
    (∀ (l : List String) (fr : Frame), ∃ argv fr1,
      marshalOptions l fr = .ok (argv, fr1) ∧ addrOfFirst argv fr1 = .ok (argv, fr1) ∧
      argv.length = l.length + 1) ∧
    (∃ eff argv, (eff = options ∨ eff = ["-of", "MEM"] ++ options) ∧
      ((Warp N dstDS destDS sourceDS options).callsTo "GDALWarpAppOptionsNew").map
        NativeCall.argv = [some argv] ∧
      argv.length = eff.length + 1 ∧
      argv.map (Option.map CStr.val) = eff.map some ++ [none]) ∧
    (∃ eff argv, (eff = options ∨ eff = ["-of", "MEM"] ++ options) ∧
      ((Translate N dstDS src options).callsTo "GDALTranslateOptionsNew").map
        NativeCall.argv = [some argv] ∧
      argv.length = eff.length + 1 ∧
      argv.map (Option.map CStr.val) = eff.map some ++ [none]) ∧
    (∃ eff argv, (eff = options ∨ eff = ["-f", "MEM"] ++ options) ∧
      ((VectorTranslate N dstDS sourceDS options).callsTo
        "GDALVectorTranslateOptionsNew").map NativeCall.argv = [some argv] ∧
      argv.length = eff.length + 1 ∧
      argv.map (Option.map CStr.val) = eff.map some ++ [none]) ∧
    (∃ eff argv, (eff = options ∨ eff = ["-of", "MEM"] ++ options) ∧
      ((Rasterize N dstDS src options).callsTo "GDALRasterizeOptionsNew").map
        NativeCall.argv = [some argv] ∧
      argv.length = eff.length + 1 ∧
      argv.map (Option.map CStr.val) = eff.map some ++ [none]) ∧
    (∃ eff argv, (eff = options ∨ eff = ["-of", "MEM"] ++ options) ∧
      ((DEMProcessing N dstDS src processing colorFileName options).callsTo
        "GDALDEMProcessingOptionsNew").map NativeCall.argv = [some argv] ∧
      argv.length = eff.length + 1 ∧
      argv.map (Option.map CStr.val) = eff.map some ++ [none]) ∧
    ((∃ argv,
      ((ContourGenerate N Err band layer (some options) progress data).callsTo
        "GDALContourGenerateEx").map NativeCall.argv
        = (if (progress.goPointer || data.goPointer) = true then [] else [some argv]) ∧
      argv.length = options.length + 1 ∧
      argv.map (Option.map CStr.val) = options.map some ++ [none]) ∧
      (ContourGenerate N Err band layer (some options) progress data).allocated.length
        = options.length ∧
      ∀ i n, (ContourGenerate N Err band layer (some options) progress data).result
        ≠ .error (Fault.indexOutOfRange i n)) ∧
    ((Translate N "out.tif" src []).callsTo "GDALTranslateOptionsNew").map
        NativeCall.argv = [some [none]] := by
  refine ⟨?_, ?_, ?_, ?_, ?_, ?_, ?_, ?_⟩
  · intro l fr
    refine ⟨_, _, marshalOptions_eq l fr, ?_, ?_⟩
    · simp [addrOfFirst]
    · simp [cstrsFrom_length]
  · rw [Warp_eq]
    by_cases h : (dstDS = "" ∧ destDS = none) ∧ stringArrayContains options "-of" = false
    · rw [if_pos h]
      exact ⟨_, argvOf _, Or.inr rfl,
        by rw [(warpRun_option_calls _ _ _ _ _).1]; rfl, argvOf_length _, argvOf_vals _⟩
    · rw [if_neg h]
      exact ⟨_, argvOf _, Or.inl rfl,
        by rw [(warpRun_option_calls _ _ _ _ _).1]; rfl, argvOf_length _, argvOf_vals _⟩
  · rw [Translate_eq]
    by_cases h : dstDS = "" ∧ stringArrayContains options "-of" = false
    · rw [if_pos h]
      exact ⟨_, argvOf _, Or.inr rfl,
        by rw [(translateRun_option_calls _ _ _ _).1]; rfl, argvOf_length _, argvOf_vals _⟩
    · rw [if_neg h]
      exact ⟨_, argvOf _, Or.inl rfl,
        by rw [(translateRun_option_calls _ _ _ _).1]; rfl, argvOf_length _, argvOf_vals _⟩
  · rw [VectorTranslate_eq]
    by_cases h : dstDS = "" ∧ stringArrayContains options "-f" = false
    · rw [if_pos h]
      exact ⟨_, argvOf _, Or.inr rfl,
        by rw [(vectorTranslateRun_option_calls _ _ _ _).1]; rfl, argvOf_length _, argvOf_vals _⟩
    · rw [if_neg h]
      exact ⟨_, argvOf _, Or.inl rfl,
        by rw [(vectorTranslateRun_option_calls _ _ _ _).1]; rfl, argvOf_length _, argvOf_vals _⟩
  · rw [Rasterize_eq]
    by_cases h : dstDS = "" ∧ stringArrayContains options "-f" = false
    · rw [if_pos h]
      exact ⟨_, argvOf _, Or.inr rfl,
        by rw [(rasterizeRun_option_calls _ _ _ _).1]; rfl, argvOf_length _, argvOf_vals _⟩
    · rw [if_neg h]
      exact ⟨_, argvOf _, Or.inl rfl,
        by rw [(rasterizeRun_option_calls _ _ _ _).1]; rfl, argvOf_length _, argvOf_vals _⟩
  · rw [DEMProcessing_eq]
    by_cases h : dstDS = "" ∧ stringArrayContains options "-f" = false
    · rw [if_pos h]
      exact ⟨_, argvOf _, Or.inr rfl,
        by rw [(demProcessingRun_option_calls _ _ _ _ _ _).1]; rfl, argvOf_length _, argvOf_vals _⟩
    · rw [if_neg h]
      exact ⟨_, argvOf _, Or.inl rfl,
        by rw [(demProcessingRun_option_calls _ _ _ _ _ _).1]; rfl, argvOf_length _, argvOf_vals _⟩
  · rw [ContourGenerate_some_eq]
    refine ⟨⟨argvOf options, ?_, argvOf_length _, argvOf_vals _⟩, ?_, ?_⟩
    · rw [contourRun_contour_calls]
      split <;> simp [NativeCall.argv]
    · rw [(contourRun_buffers _ _ _ _ _ _ _).1]
      simp
    · intro i n
      simp only [contourRun]
      split <;> simp
  · rfl

/-- C18: when `destDS` is non-nil, `Warp` applies no in-memory default: for every
destination name, the empty string included, and every option list, the options
constructor receives exactly the caller's options and the native warp receives the
caller's destination name and the handle of `destDS`; when `destDS` is nil the native
warp receives a null destination handle.  (No native warp call is made when there is no
source dataset.) -/
theorem Warp_destDS_handling (N : Native) (dstDS : String) (d : Dataset)
    (sourceDS : List Dataset) (options : List String) :
    (((Warp N dstDS (some d) sourceDS options).callsTo "GDALWarpAppOptionsNew").map
        NativeCall.optionList = [some options] ∧
      ((Warp N dstDS (some d) sourceDS options).callsTo "GDALWarp").map
          (fun c => (c.destination, c.args[1]?))
        = if sourceDS = [] then [] else [(some dstDS, some (CArg.ptr d.cval))]) ∧
    (((Warp N "" (some d) sourceDS options).callsTo "GDALWarpAppOptionsNew").map
        NativeCall.optionList = [some options] ∧
      ((Warp N "" (some d) sourceDS options).callsTo "GDALWarp").map
          (fun c => (c.destination, c.args[1]?))
        = if sourceDS = [] then [] else [(some "", some (CArg.ptr d.cval))]) ∧
    ((Warp N dstDS none sourceDS options).callsTo "GDALWarp").map (fun c => c.args[1]?)
      = if sourceDS = [] then [] else [some (CArg.ptr 0)] := by
  rw [Warp_eq, Warp_eq, Warp_eq]
  refine ⟨?_, ?_, ?_⟩
  · by_cases hs : sourceDS = [] <;>
    simp [warpRun, Run.callsTo, Run.calls, hs, toCall_optionAllocs, toCall_optionFrees,
      Event.toCall, NativeCall.optionList, NativeCall.destination, cStrings_argvOf,
      List.filterMap_append]
  · by_cases hs : sourceDS = [] <;>
    simp [warpRun, Run.callsTo, Run.calls, hs, toCall_optionAllocs, toCall_optionFrees,
      Event.toCall, NativeCall.optionList, NativeCall.destination, cStrings_argvOf,
      List.filterMap_append]
  · by_cases hs : sourceDS = [] <;>
    simp [warpRun, Run.callsTo, Run.calls, hs, toCall_optionAllocs, toCall_optionFrees,
      Event.toCall, List.filterMap_append]

/-- C19: in `Rasterize` and `DEMProcessing` with an empty destination, `"-of"`, `"MEM"`
is injected exactly when `"-f"` does not occur in the caller's options, whether or not
`"-of"` occurs; and for the options `["-f", "GTiff"]`, which contain `"-f"` and no
`"-of"`, the native call gets the destination `"MEM:::"` and the options constructor
gets the caller's list, with no `"-of"` in it. -/
theorem Rasterize_DEMProcessing_guard_is_f (N : Native) (src : Dataset)
    (processing colorFileName : String) (options : List String) :
    (((Rasterize N "" src options).callsTo "GDALRasterizeOptionsNew").map
        NativeCall.optionList
        = [some (if stringArrayContains options "-f" = true then options
            else ["-of", "MEM"] ++ options)] ∧
      ((DEMProcessing N "" src processing colorFileName options).callsTo
        "GDALDEMProcessingOptionsNew").map NativeCall.optionList
        = [some (if stringArrayContains options "-f" = true then options
            else ["-of", "MEM"] ++ options)]) ∧
    (stringArrayContains ["-f", "GTiff"] "-f" = true ∧
      stringArrayContains ["-f", "GTiff"] "-of" = false ∧
      ((Rasterize N "" src ["-f", "GTiff"]).callsTo "GDALRasterizeOptionsNew").map
        NativeCall.optionList = [some ["-f", "GTiff"]] ∧
      ((Rasterize N "" src ["-f", "GTiff"]).callsTo "GDALRasterize").map
        NativeCall.destination = [some "MEM:::"] ∧
      ((DEMProcessing N "" src processing colorFileName ["-f", "GTiff"]).callsTo
        "GDALDEMProcessingOptionsNew").map NativeCall.optionList
        = [some ["-f", "GTiff"]] ∧
      ((DEMProcessing N "" src processing colorFileName ["-f", "GTiff"]).callsTo
        "GDALDEMProcessing").map NativeCall.destination = [some "MEM:::"]) := by
  simp only [Rasterize_eq, DEMProcessing_eq]
  refine ⟨⟨?_, ?_⟩, by decide, by decide, ?_, ?_, ?_, ?_⟩
  · by_cases hf : stringArrayContains options "-f" = true <;>
    simp [rasterizeRun, Run.callsTo, Run.calls, hf, toCall_optionAllocs, toCall_optionFrees,
      Event.toCall, NativeCall.optionList, cStrings_argvOf, List.filterMap_append]
  · by_cases hf : stringArrayContains options "-f" = true <;>
    simp [demProcessingRun, Run.callsTo, Run.calls, hf, toCall_optionAllocs,
      toCall_optionFrees, Event.toCall, NativeCall.optionList, cStrings_argvOf,
      List.filterMap_append]
  · simp [rasterizeRun, Run.callsTo, Run.calls, stringArrayContains, toCall_optionAllocs,
      toCall_optionFrees, Event.toCall, NativeCall.optionList, cStrings_argvOf,
      List.filterMap_append]
  · simp [rasterizeRun, Run.callsTo, Run.calls, stringArrayContains, toCall_optionAllocs,
      toCall_optionFrees, Event.toCall, NativeCall.destination, List.filterMap_append]
  · simp [demProcessingRun, Run.callsTo, Run.calls, stringArrayContains,
      toCall_optionAllocs, toCall_optionFrees, Event.toCall, NativeCall.optionList,
      cStrings_argvOf, List.filterMap_append]
  · simp [demProcessingRun, Run.callsTo, Run.calls, stringArrayContains,
      toCall_optionAllocs, toCall_optionFrees, Event.toCall, NativeCall.destination,
      List.filterMap_append]

/-! ## The caller's option slice -/

theorem GoHeap.read_append_of_valid (h : GoHeap) (a : List String) (s : GoSlice)
    (hvalid : s.arr < h.length ∨ s.len = 0) : GoHeap.read (h ++ [a]) s = GoHeap.read h s := by
  rcases hvalid with hv | hv
  · simp [GoHeap.read, List.getD_eq_getElem?_getD, List.getElem?_append_left hv]
  · simp [GoHeap.read, hv]

theorem GoHeap.read_new (h : GoHeap) (a : List String) :
    GoHeap.read (h.new a).2 (h.new a).1 = a := by
  simp [GoHeap.read, GoHeap.new, List.getD_eq_getElem?_getD]

theorem GoHeap.new_keeps (h : GoHeap) (a : List String) (i : Nat) (hi : i < h.length) :
    (h.new a).2[i]? = h[i]? := by
  simp [GoHeap.new, List.getElem?_append_left hi]

theorem GoHeap.new_length (h : GoHeap) (a : List String) :
    (h.new a).2.length = h.length + 1 := by
  simp [GoHeap.new]

theorem GoHeap.read_after_new (h : GoHeap) (a : List String) (s : GoSlice)
    (hvalid : s.arr < h.length ∨ s.len = 0) :
    GoHeap.read (h.new a).2 s = GoHeap.read h s :=
  GoHeap.read_append_of_valid h a s hvalid

theorem GoHeap.append_literal_nil (h : GoHeap) (a : List String) :
    (h.new a).2.append (h.new a).1 [] = ((h.new a).1, (h.new a).2) := by
  have hw : GoHeap.write (h ++ [a]) h.length a.length [] = h ++ [a] := by
    simp [GoHeap.write, List.getD_eq_getElem?_getD]
  simp [GoHeap.append, GoHeap.new, hw]

theorem GoHeap.append_literal_cons (h : GoHeap) (a xs : List String) (hx : xs ≠ []) :
    (h.new a).2.append (h.new a).1 xs = (h.new a).2.new (a ++ xs) := by
  have hlen : ¬ (a.length + xs.length ≤ a.length) := by
    have : 0 < xs.length := List.length_pos.mpr hx
    omega
  have hnew : (h.new a).1.len = a.length ∧ (h.new a).1.cap = a.length := ⟨rfl, rfl⟩
  unfold GoHeap.append
  rw [hnew.1, hnew.2, if_neg hlen, GoHeap.read_new]

theorem injectDefault_spec (h : GoHeap) (mem : Bool) (tested flag : String)
    (options : GoSlice) (hvalid : options.arr < h.length ∨ options.len = 0) :
    (∀ i, i < h.length → (injectDefault h mem tested flag options).2[i]? = h[i]?) ∧
    GoHeap.read (injectDefault h mem tested flag options).2 options = h.read options ∧
    GoHeap.read (injectDefault h mem tested flag options).2
        (injectDefault h mem tested flag options).1
      = if (mem && !stringArrayContains (h.read options) tested) = true
        then [flag, "MEM"] ++ h.read options else h.read options := by
  by_cases hc : (mem && !stringArrayContains (h.read options) tested) = true
  · have hread : GoHeap.read (h.new [flag, "MEM"]).2 options = h.read options :=
      GoHeap.read_after_new h _ options hvalid
    unfold injectDefault
    rw [if_pos hc, if_pos hc, hread]
    by_cases hx : h.read options = []
    · rw [hx, GoHeap.append_literal_nil]
      exact ⟨fun i hi => GoHeap.new_keeps h _ i hi, hread.trans hx, GoHeap.read_new h _⟩
    · rw [GoHeap.append_literal_cons h _ _ hx]
      have hvalid1 : options.arr < (h.new [flag, "MEM"]).2.length ∨ options.len = 0 :=
        hvalid.imp (fun hv => by rw [GoHeap.new_length]; omega) id
      refine ⟨fun i hi => ?_, ?_, GoHeap.read_new _ _⟩
      · rw [GoHeap.new_keeps _ _ i (by rw [GoHeap.new_length]; omega),
          GoHeap.new_keeps h _ i hi]
      · rw [GoHeap.read_after_new _ _ options hvalid1, hread]
  · unfold injectDefault
    rw [if_neg hc, if_neg hc]
    exact ⟨fun _ _ => rfl, rfl, rfl⟩

theorem injectDefault_fresh (h : GoHeap) (mem : Bool) (tested flag : String)
    (options : GoSlice) :
    (injectDefault h mem tested flag options).1 = options ∨
      h.length ≤ (injectDefault h mem tested flag options).1.arr := by
  by_cases hc : (mem && !stringArrayContains (h.read options) tested) = true
  · right
    unfold injectDefault
    rw [if_pos hc]
    by_cases hx : GoHeap.read (h.new [flag, "MEM"]).2 options = []
    · rw [hx, GoHeap.append_literal_nil]
      exact le_refl _
    · rw [GoHeap.append_literal_cons h _ _ hx]
      show h.length ≤ (h.new [flag, "MEM"]).2.length
      rw [GoHeap.new_length]
      omega
  · left
    unfold injectDefault
    rw [if_neg hc]

/-- C20: no batch utility modifies the caller's options.  For the defaulting step of
any of the utilities (whatever flag it tests and injects, applied or not), run on the
caller's slice `options` in a heap `h`: every backing array that existed before is
unchanged, so the caller's slice reads the same elements in the same order afterwards;
the slice the utility goes on with is the caller's own or lies in a backing array
allocated by the step; the caller's options are a suffix of the effective list, which is
never shorter; and each utility, run on the caller's list, is its closed form on the
effective list, which only reads it. -/
theorem caller_options_untouched (N : Native) (h : GoHeap) (options : GoSlice) (mem : Bool)
    (tested flag : String) (dstDS : String) (destDS : Option Dataset)
    (sourceDS : List Dataset) (src : Dataset) (processing colorFileName : String)
    (hvalid : options.arr < h.length ∨ options.len = 0) :
    ((∀ i, i < h.length → (injectDefault h mem tested flag options).2[i]? = h[i]?) ∧
      GoHeap.read (injectDefault h mem tested flag options).2 options = h.read options ∧
      ((injectDefault h mem tested flag options).1 = options ∨
        h.length ≤ (injectDefault h mem tested flag options).1.arr) ∧
      List.IsSuffix (h.read options)
        (GoHeap.read (injectDefault h mem tested flag options).2
          (injectDefault h mem tested flag options).1) ∧
      (h.read options).length
        ≤ (GoHeap.read (injectDefault h mem tested flag options).2
            (injectDefault h mem tested flag options).1).length) ∧
    Warp N dstDS destDS sourceDS (h.read options)
      = warpRun N (if dstDS = "" ∧ destDS = none then "MEM:::" else dstDS) destDS sourceDS
          (GoHeap.read
            (injectDefault h (decide (dstDS = "") && destDS.isNone) "-of" "-of" options).2
            (injectDefault h (decide (dstDS = "") && destDS.isNone) "-of" "-of" options).1) ∧
    Translate N dstDS src (h.read options)
      = translateRun N (if dstDS = "" then "MEM:::" else dstDS) src
          (GoHeap.read (injectDefault h (decide (dstDS = "")) "-of" "-of" options).2
            (injectDefault h (decide (dstDS = "")) "-of" "-of" options).1) ∧
    VectorTranslate N dstDS sourceDS (h.read options)
      = vectorTranslateRun N (if dstDS = "" then "MEM:::" else dstDS) sourceDS
          (GoHeap.read (injectDefault h (decide (dstDS = "")) "-f" "-f" options).2
            (injectDefault h (decide (dstDS = "")) "-f" "-f" options).1) ∧
    Rasterize N dstDS src (h.read options)
      = rasterizeRun N (if dstDS = "" then "MEM:::" else dstDS) src
          (GoHeap.read (injectDefault h (decide (dstDS = "")) "-f" "-of" options).2
            (injectDefault h (decide (dstDS = "")) "-f" "-of" options).1) ∧
    DEMProcessing N dstDS src processing colorFileName (h.read options)
      = demProcessingRun N (if dstDS = "" then "MEM:::" else dstDS) src processing
          colorFileName
          (GoHeap.read (injectDefault h (decide (dstDS = "")) "-f" "-of" options).2
            (injectDefault h (decide (dstDS = "")) "-f" "-of" options).1) := by
  have key := fun m t f => injectDefault_spec h m t f options hvalid
  refine ⟨⟨(key mem tested flag).1, (key mem tested flag).2.1,
    injectDefault_fresh h mem tested flag options, ?_, ?_⟩, ?_, ?_, ?_, ?_, ?_⟩
  · rw [(key mem tested flag).2.2]
    split
    · exact List.suffix_append _ _
    · exact List.suffix_refl _
  · rw [(key mem tested flag).2.2]
    split
    · simp only [List.length_append, List.length_cons, List.length_nil]
      omega
    · exact le_refl _
  · rw [Warp_eq, (key _ _ _).2.2]
    congr 1
    by_cases hd : dstDS = "" <;> cases destDS <;> simp [hd]
  · rw [Translate_eq, (key _ _ _).2.2]
    congr 1
    by_cases hd : dstDS = "" <;> simp [hd]
  · rw [VectorTranslate_eq, (key _ _ _).2.2]
    congr 1
    by_cases hd : dstDS = "" <;> simp [hd]
  · rw [Rasterize_eq, (key _ _ _).2.2]
    congr 1
    by_cases hd : dstDS = "" <;> simp [hd]
  · rw [DEMProcessing_eq, (key _ _ _).2.2]
    congr 1
    by_cases hd : dstDS = "" <;> simp [hd]

/-- Witness for C20: the caller holds `["-t_srs", "epsg:4326"]` and `Warp` injects the
in-memory pair. -/
theorem caller_options_untouched_witness :
    ((⟨0, 0, 2, 2⟩ : GoSlice).arr < ([["-t_srs", "epsg:4326"]] : GoHeap).length ∨
      (⟨0, 0, 2, 2⟩ : GoSlice).len = 0) ∧
    GoHeap.read (injectDefault [["-t_srs", "epsg:4326"]] true "-of" "-of" ⟨0, 0, 2, 2⟩).2
        ⟨0, 0, 2, 2⟩
      = GoHeap.read [["-t_srs", "epsg:4326"]] ⟨0, 0, 2, 2⟩ ∧
    GoHeap.read (injectDefault [["-t_srs", "epsg:4326"]] true "-of" "-of" ⟨0, 0, 2, 2⟩).2
        (injectDefault [["-t_srs", "epsg:4326"]] true "-of" "-of" ⟨0, 0, 2, 2⟩).1
      = ["-of", "MEM", "-t_srs", "epsg:4326"] :=
  ⟨Or.inl (by decide),
   (caller_options_untouched (fun _ => ⟨7, 0, ⟨0⟩, 0⟩) [["-t_srs", "epsg:4326"]]
      ⟨0, 0, 2, 2⟩ true "-of" "-of" "" none [⟨5⟩] ⟨5⟩ "" "" (Or.inl (by decide))).1.2.1,
   by decide⟩

/-! ## Flag lookup -/

/-- C21: `stringArrayContains(array, needle)` returns true exactly when some element
of `array` is equal to `needle` as a whole string; it returns false for every needle on
the empty (or nil) array; and the flags `"-OF"`, `"--of"` and `"-of=MEM"`, which differ
from `"-of"` in case, contain it or start with it, do not count as `"-of"`, alone or
together. -/
theorem stringArrayContains_iff_mem (array : List String) (needle : String) :
    (stringArrayContains array needle = true ↔ ∃ s, s ∈ array ∧ s = needle) ∧
    stringArrayContains [] needle = false ∧
    stringArrayContains ["-OF"] "-of" = false ∧
    stringArrayContains ["--of"] "-of" = false ∧
    stringArrayContains ["-of=MEM"] "-of" = false ∧
    stringArrayContains ["-OF", "--of", "-of=MEM"] "-of" = false := by
  refine ⟨?_, rfl, by decide, by decide, by decide, by decide⟩
  induction array with
  | nil => simp [stringArrayContains]
  | cons s rest ih =>
    by_cases h : s = needle
    · simp [stringArrayContains, h]
    · simp only [stringArrayContains, if_neg h, ih, List.mem_cons]
      constructor
      · rintro ⟨t, ht, rfl⟩
        exact ⟨t, Or.inr ht, rfl⟩
      · rintro ⟨t, ht | ht, rfl⟩
        · exact absurd ht.symm h
        · exact ⟨t, ht, rfl⟩

end Gdal
